import Mathlib

/-!
# Biometric authentication client: session and token handling

A shallow embedding of the browser scripts `index.js`, `form.js`, `face-scan.js` and
`user-profile.js`.

* Local storage is a finite map from keys to strings, modelled as a function
  `String → Option String`.
* Every handler is a promise chain.  The answers of the outside world (the outcome of a
  `fetch`, the outcome of the face capture, the clock) are arguments of the handler, and the
  handler maps the world before the call to the world after its chain has settled.
* Browser built-ins that are not part of the repository (`atob`, `JSON.parse`, the string and
  number coercions of non-primitive values) are fields of `Builtins`.
* Numbers are IEEE 754 doubles (`F64`): a finite double is given by integers `m` and `e`
  with value `m × 2^e`, a product is the exact product rounded to the nearest double (ties to
  even, with subnormals and overflow to infinity), and a comparison compares exact values.
  A clock reading is an integer number of milliseconds.
* The elements that the handlers look up (`querySelector`, `getElementById`) are assumed to be
  present in the document; they are fields of `Dom`.
-/

namespace BiometricAuth

/-! ## Numbers -/

/-- A JavaScript number, that is an IEEE 754 double: `NaN`, an infinity with its sign, or the
finite value `m × 2^e`.  The two zeros are not told apart. -/
inductive F64 where
  | nan
  | inf (negative : Bool)
  | finite (m : Int) (e : Int)

/-- The number of binary digits of `n`, counted by halving at most `fuel` times. -/
def bitLengthAux : Nat → Nat → Nat
  | 0, _ => 0
  | fuel + 1, n => if n = 0 then 0 else bitLengthAux fuel (n / 2) + 1

/-- The number of binary digits of `n`; `n` halvings are always enough. -/
def bitLength (n : Nat) : Nat := bitLengthAux n n

/-- The quotient `n / 2^s` rounded to the nearest integer, a tie going to the even one. -/
def shiftRoundEven (n s : Nat) : Nat :=
  if s = 0 then n
  else
    let q := n / 2 ^ s
    let r := n % 2 ^ s
    let half := 2 ^ (s - 1)
    if r < half then q
    else if half < r then q + 1
    else if q % 2 = 0 then q else q + 1

/-- The double nearest to the exact value `m × 2^e`.  A double has at most 53 significant
bits and no digit below `2^(-1074)`; `s` is the number of low bits that have to go.  A result
of `2^1024` or more is an infinity. -/
def roundF64 (m e : Int) : F64 :=
  let n := m.natAbs
  let s : Int := max ((bitLength n : Int) - 53) (-1074 - e)
  let n1 := if s ≤ 0 then n else shiftRoundEven n s.toNat
  let e1 := if s ≤ 0 then e else e + s
  if (bitLength n1 : Int) + e1 > 1024 then .inf (decide (m < 0))
  else .finite (if m < 0 then -(n1 : Int) else (n1 : Int)) e1

/-- The exact value `m × 2^e` of a finite double. -/
def finiteValue (m e : Int) : ℚ := (m : ℚ) * (2 : ℚ) ^ e

/-! ## JavaScript values -/

/-- The values produced by `JSON.parse`. -/
inductive JVal where
  | null
  | bool (b : Bool)
  | num (x : F64)
  | str (s : String)
  | arr (items : List JVal)
  | obj (fields : List (String × JVal))

/-- The JavaScript values the scripts handle: `undefined`, parsed JSON, and the pending
`Promise` object returned by `response.json()`. -/
inductive Value where
  | undefined
  | json (v : JVal)
  | promise

/-- Thrown values and rejection reasons. -/
inductive JsError where
  | typeError
  | invalidCharacter
  | parseError
  | error (message : String)
  | rejection (reason : String)
  deriving DecidableEq, Repr

/-- Browser built-ins used by the scripts.  `atob` and `jsonParse` return `none` when the
built-in throws; `toNumber` is `ToNumber` on strings, arrays and objects;
`toStr` is `ToString` on numbers, arrays and objects; `errorText` is the text of an error
object raised by the engine. -/
structure Builtins where
  atob : String → Option String
  jsonParse : String → Option JVal
  toNumber : JVal → F64
  toStr : JVal → String
  errorText : JsError → String

/-- Truthiness, as tested by `if (v)` and `!v`. -/
def Value.truthy : Value → Bool
  | .undefined => false
  | .json .null => false
  | .json (.bool b) => b
  | .json (.num .nan) => false
  | .json (.num (.inf _)) => true
  | .json (.num (.finite m _)) => m != 0
  | .json (.str s) => s != ""
  | .json (.arr _) => true
  | .json (.obj _) => true
  | .promise => true

/-- The field `name` of a parsed object, `undefined` when there is none. -/
def fieldValue (fields : List (String × JVal)) (name : String) : Value :=
  match fields.lookup name with
  | some x => .json x
  | none => .undefined

/-- Reading a data property `v.name`.  Reading from `null` or `undefined` throws; an object
gives the field or `undefined`; every other value has no such data property. -/
def Value.prop (v : Value) (name : String) : Except JsError Value :=
  match v with
  | .undefined => .error .typeError
  | .json .null => .error .typeError
  | .json (.obj fields) => .ok (fieldValue fields name)
  | _ => .ok .undefined

/-- The coercion `ToNumber`. -/
def Value.toNumber (B : Builtins) : Value → F64
  | .undefined => .nan
  | .json .null => .finite 0 0
  | .json (.bool b) => .finite (if b then 1 else 0) 0
  | .json (.num x) => x
  | .json v => B.toNumber v
  | .promise => .nan

/-- The coercion `ToString`, applied by `localStorage.setItem` to its value. -/
def Value.toStr (B : Builtins) : Value → String
  | .undefined => "undefined"
  | .json .null => "null"
  | .json (.bool b) => if b then "true" else "false"
  | .json (.str s) => s
  | .json v => B.toStr v
  | .promise => "[object Promise]"

/-- Strict equality `v === lit` against a string literal. -/
def Value.strictEqStr (v : Value) (lit : String) : Bool :=
  match v with
  | .json (.str s) => s == lit
  | _ => false

/-- The product `a * b` of two doubles: `NaN` when either is `NaN` or when an infinity meets
zero, an infinity when either is one, and otherwise the exact product rounded to a double. -/
def jsMul (a b : F64) : F64 :=
  match a, b with
  | .nan, _ => .nan
  | _, .nan => .nan
  | .inf s, .inf t => .inf (s != t)
  | .inf s, .finite m _ => if m = 0 then .nan else .inf (s != decide (m < 0))
  | .finite m _, .inf t => if m = 0 then .nan else .inf (decide (m < 0) != t)
  | .finite m1 e1, .finite m2 e2 => roundF64 (m1 * m2) (e1 + e2)

/-- The comparison `a > b` of the integer `a` with the double `b`: false when `b` is `NaN`,
and otherwise the comparison of the exact values, `m × 2^e < a` being decided in integers. -/
def jsGt (a : Int) (b : F64) : Bool :=
  match b with
  | .nan => false
  | .inf negative => negative
  | .finite m e =>
    if 0 ≤ e then decide (m * 2 ^ e.toNat < a) else decide (m < a * 2 ^ (-e).toNat)

/-! ## Local storage -/

/-- The content of `localStorage`. -/
abbrev Storage := String → Option String

/-- The call `localStorage.getItem(key)`: the stored string, or `none` for `null`. -/
def Storage.getItem (s : Storage) (key : String) : Option String := s key

/-- The call `localStorage.setItem(key, value)`. -/
def Storage.setItem (s : Storage) (key value : String) : Storage :=
  fun k => if k = key then some value else s k

/-- The call `localStorage.removeItem(key)`. -/
def Storage.removeItem (s : Storage) (key : String) : Storage :=
  fun k => if k = key then none else s k

/-- The JavaScript value of a `getItem` result. -/
def ofItem : Option String → Value
  | some s => .json (.str s)
  | none => .json .null

/-! ## index.js -/

/-- Function `isAuthenticated` of index.js: `token !== null`. -/
def isAuthenticated (storage : Storage) : Bool :=
  let token := storage.getItem "accessToken"
  token != none

/-! ## user-profile.js: token expiry -/

/-- Splitting a character sequence at every dot, as `String.prototype.split(".")` does. -/
def splitDots : List Char → List (List Char)
  | [] => [[]]
  | c :: cs =>
    match splitDots cs with
    | [] => if c = '.' then [[], []] else [[c]]
    | seg :: rest => if c = '.' then [] :: seg :: rest else (c :: seg) :: rest

/-- The call `token.split(".")`; only strings have the method. -/
def Value.split (v : Value) : Except JsError (List String) :=
  match v with
  | .json (.str s) => .ok ((splitDots s.toList).map String.mk)
  | _ => .error .typeError

/-- Function `isTokenExpired` of user-profile.js, at clock reading `now` (milliseconds). -/
def isTokenExpired (B : Builtins) (now : Int) (token : Value) : Except JsError Bool :=
  if !token.truthy then
    .ok true
  else do
    let parts ← token.split
    let segment : String := (parts.get? 1).getD "undefined"
    let decoded ← (match B.atob segment with
      | some d => Except.ok d
      | none => Except.error JsError.invalidCharacter)
    let tokenData ← (match B.jsonParse decoded with
      | some v => Except.ok (Value.json v)
      | none => Except.error JsError.parseError)
    let exp ← tokenData.prop "exp"
    let expirationTime := jsMul (exp.toNumber B) (.finite 1000 0)
    let currentTime := now
    .ok (jsGt currentTime expirationTime)

/-! ## The document, the network and the world -/

/-- A button element: the properties the scripts write. -/
structure Button where
  disabled : Bool
  innerText : String
  color : String
  classList : List String

/-- A message element: its text and its `style.display`. -/
structure Span where
  textContent : String
  display : String

/-- The elements the handlers look up.  Input fields are given by their `value`, the profile
fields by their `textContent`. -/
structure Dom where
  signUpEmail : String
  signUpPassword : String
  signUpUsername : String
  logInUsernameEmail : String
  logInPassword : String
  error : Span
  feedback : Span
  setupBiometrics : Button
  authenticateBiometrics : Button
  username : String
  email : String
  userId : String
  accountCreationDate : String

/-- The face descriptor of one detected face.  The scripts never inspect its entries, which
are represented by integers. -/
abbrev FaceDescriptor := List Int

/-- The object handed to `JSON.stringify` for a request body. -/
inductive Body where
  | fields (fs : List (String × String))
  | faceData (d : FaceDescriptor)

/-- One call of `fetch`. -/
structure Request where
  method : String
  url : String
  headers : List (String × String)
  body : Option Body

/-- A response: its status, and what `response.json()` resolves to (`none` when the body is
not JSON and the promise rejects). -/
structure Response where
  status : Nat
  json : Option JVal

/-- The property `response.ok`: a status in the range 200 to 299. -/
def Response.ok (r : Response) : Bool := decide (200 ≤ r.status) && decide (r.status ≤ 299)

/-- How a `fetch` promise settles. -/
inductive FetchOutcome where
  | rejected (reason : String)
  | resolved (r : Response)

/-- What the face-recognition library answers within `captureAndEncodeFace`. -/
inductive FaceApi where
  | loadFailed (reason : String)
  | detectFailed (reason : String)
  | detections (ds : List FaceDescriptor)

/-- Everything the handlers read and write: local storage, the document, the requests issued
so far (oldest first), the first arguments of the console calls, and the timers set. -/
structure World where
  storage : Storage
  dom : Dom
  requests : List Request
  console : List String
  timers : List (String × Nat)

/-- A computation of the scripts: it changes the world and returns a value or throws.  The
world changes made before a throw persist. -/
def Js (α : Type) : Type := World → Except JsError α × World

/-- Returning a value. -/
def Js.ret {α : Type} (a : α) : Js α := fun w => (.ok a, w)

/-- Sequencing; a throw skips the rest. -/
def Js.andThen {α β : Type} (m : Js α) (f : α → Js β) : Js β := fun w =>
  match m w with
  | (.ok a, w1) => f a w1
  | (.error e, w1) => (.error e, w1)

instance : Monad Js where
  pure := Js.ret
  bind := Js.andThen

/-- The statement `throw e`, and the rejection of an awaited promise. -/
def Js.throw {α : Type} (e : JsError) : Js α := fun w => (.error e, w)

/-- The promise method `.catch(handler)`. -/
def Js.catch {α : Type} (m : Js α) (handler : JsError → Js α) : Js α := fun w =>
  match m w with
  | (.ok a, w1) => (.ok a, w1)
  | (.error e, w1) => handler e w1

/-- The world once the chain has settled. -/
def Js.settle {α : Type} (m : Js α) (w : World) : World := (m w).2

/-- A pure step that may throw. -/
def Js.ofExcept {α : Type} (r : Except JsError α) : Js α := fun w => (r, w)

/-- A change of the world. -/
def Js.update (f : World → World) : Js Unit := fun w => (.ok (), f w)

/-- Reading the world. -/
def Js.read {α : Type} (f : World → α) : Js α := fun w => (.ok (f w), w)

/-- The calls `console.error(msg, ...)` and `console.log(msg, ...)`. -/
def consoleLog (msg : String) : Js Unit :=
  Js.update fun w => { w with console := w.console ++ [msg] }

/-- The statement `localStorage.setItem(key, value)`; the value is converted to a string. -/
def setItem (B : Builtins) (key : String) (value : Value) : Js Unit :=
  Js.update fun w => { w with storage := w.storage.setItem key (value.toStr B) }

/-- The statement `localStorage.removeItem(key)`. -/
def removeItem (key : String) : Js Unit :=
  Js.update fun w => { w with storage := w.storage.removeItem key }

/-- The expression `localStorage.getItem(key)`. -/
def getItem (key : String) : Js Value :=
  Js.read fun w => ofItem (w.storage.getItem key)

/-- Issuing a request whose promise is not awaited by the caller. -/
def startFetch (req : Request) : Js Unit :=
  Js.update fun w => { w with requests := w.requests ++ [req] }

/-- Waiting for a request's promise, which settles as `outcome`. -/
def await (outcome : FetchOutcome) : Js Response :=
  match outcome with
  | .resolved r => pure r
  | .rejected reason => Js.throw (.rejection reason)

/-- Issuing a request and waiting for its promise to settle as `outcome`. -/
def fetch (req : Request) (outcome : FetchOutcome) : Js Response := do
  startFetch req
  await outcome

/-- Waiting for `response.json()`. -/
def Response.awaitJson (r : Response) : Js Value :=
  match r.json with
  | some v => pure (.json v)
  | none => Js.throw .parseError

/-- The origin of the backend. -/
def backend : String := "https://biometricauthenticationsystem.onrender.com"

/-- The headers of a JSON request. -/
def jsonHeaders : List (String × String) := [("Content-Type", "application/json")]

/-- Assigning `value` to `textContent`: `null` and `undefined` give the empty string. -/
def Value.toTextContent (B : Builtins) : Value → String
  | .undefined => ""
  | .json .null => ""
  | v => v.toStr B

/-- Method `classList.add`. -/
def classAdd (cls : String) (l : List String) : List String :=
  if cls ∈ l then l else l ++ [cls]

/-- Method `classList.remove`. -/
def classRemove (cls : String) (l : List String) : List String :=
  l.filter fun c => c != cls

/-- The request `fetch(url)` for a fragment. -/
def fragmentRequest (url : String) : Request :=
  { method := "GET", url := url, headers := [], body := none }

/-! ## index.js: loading fragments

Each loader issues the request for its fragment and returns; what happens when the fragment
arrives is a separate chain, started by a later event. -/

/-- Function `loadFaceScanContent` of index.js, up to the point where it returns. -/
def loadFaceScanContent : Js Unit :=
  startFetch (fragmentRequest "face-scan.html")

/-- Function `loadUserProfileContent` of index.js, up to the point where it returns. -/
def loadUserProfileContent : Js Unit :=
  startFetch (fragmentRequest "user-profile.html")

/-- Function `loadSignUpForm` of index.js, up to the point where it returns. -/
def loadSignUpForm : Js Unit :=
  startFetch (fragmentRequest "signup.html")

/-! ## form.js -/

/-- Function `displayError` of form.js. -/
def displayError (B : Builtins) (message : Value) : Js Unit :=
  Js.update fun w =>
    { w with dom := { w.dom with
        error := { textContent := message.toTextContent B, display := "block" } } }

/-- Function `handleSignUp` of form.js; `register` is how the request settles. -/
def handleSignUp (B : Builtins) (register : FetchOutcome) : Js Unit := do
  let email ← Js.read fun w => w.dom.signUpEmail
  let password ← Js.read fun w => w.dom.signUpPassword
  let username ← Js.read fun w => w.dom.signUpUsername
  let data := Body.fields [("email", email), ("password", password), ("username", username)]
  Js.catch
    (do
      let response ← fetch
        { method := "POST", url := backend ++ "/user/register", headers := jsonHeaders,
          body := some data } register
      let data ← response.awaitJson
      if (← Js.ofExcept (data.prop "message")).strictEqStr "Registration successful" then do
        Js.update fun w => { w with dom := { w.dom with signUpUsername := "" } }
        Js.update fun w => { w with dom := { w.dom with signUpEmail := "" } }
        Js.update fun w => { w with dom := { w.dom with signUpPassword := "" } }
        setItem B "accessToken" (← Js.ofExcept (data.prop "access_token"))
        setItem B "refreshToken" (← Js.ofExcept (data.prop "refresh_token"))
        loadFaceScanContent
      else
        displayError B (← Js.ofExcept (data.prop "message")))
    (fun _ => do
      consoleLog "Error:"
      displayError B (.json (.str "An error occurred during registration.")))

/-- Function `handleLogIn` of form.js; `login` is how the request settles. -/
def handleLogIn (B : Builtins) (login : FetchOutcome) : Js Unit := do
  let usernameEmail ← Js.read fun w => w.dom.logInUsernameEmail
  let password ← Js.read fun w => w.dom.logInPassword
  let data := Body.fields [("usernameEmail", usernameEmail), ("password", password)]
  Js.catch
    (do
      let response ← fetch
        { method := "POST", url := backend ++ "/user/login", headers := jsonHeaders,
          body := some data } login
      let data ← response.awaitJson
      if (← Js.ofExcept (data.prop "message")).strictEqStr "Login successful" then do
        Js.update fun w => { w with dom := { w.dom with logInUsernameEmail := "" } }
        Js.update fun w => { w with dom := { w.dom with logInPassword := "" } }
        setItem B "accessToken" (← Js.ofExcept (data.prop "access_token"))
        setItem B "refreshToken" (← Js.ofExcept (data.prop "refresh_token"))
        loadUserProfileContent
      else
        displayError B (← Js.ofExcept (data.prop "message")))
    (fun _ => do
      consoleLog "Error:"
      displayError B (.json (.str "An error occurred during login.")))

/-! ## face-scan.js -/

/-- The text `String(error)` of a caught value. -/
def JsError.toStr (B : Builtins) : JsError → String
  | .error message => "Error: " ++ message
  | .rejection reason => reason
  | e => B.errorText e

/-- Function `captureAndEncodeFace` of face-scan.js: the descriptor of the first detected
face, or `none` for `null`. -/
def captureAndEncodeFace (api : FaceApi) : Js (Option FaceDescriptor) :=
  match api with
  | .loadFailed reason => Js.throw (.rejection reason)
  | .detectFailed reason => Js.throw (.rejection reason)
  | .detections ds =>
    match ds with
    | faceData :: _ => pure (some faceData)
    | [] => do
      consoleLog "No face detected."
      pure none

/-- A change of the button `setup-biometrics`. -/
def setupButton (f : Button → Button) : Js Unit :=
  Js.update fun w => { w with dom := { w.dom with setupBiometrics := f w.dom.setupBiometrics } }

/-- A change of the button `authenticate-biometrics`. -/
def authButton (f : Button → Button) : Js Unit :=
  Js.update fun w =>
    { w with dom := { w.dom with authenticateBiometrics := f w.dom.authenticateBiometrics } }

/-- Function `displayScanError` of face-scan.js. -/
def displayScanError (message : String) : Js Unit :=
  Js.update fun w =>
    { w with dom := { w.dom with feedback := { textContent := message, display := "block" } } }

/-- Function `displaySuccessfulMesssage` of face-scan.js. -/
def displaySuccessfulMesssage (message : String) : Js Unit :=
  Js.update fun w =>
    { w with dom := { w.dom with feedback := { textContent := message, display := "block" } } }

/-- The call `setTimeout(callback, delay)`. -/
def setTimeout (callback : String) (delay : Nat) : Js Unit :=
  Js.update fun w => { w with timers := w.timers ++ [(callback, delay)] }

/-- The synchronous part of `setupBiometricAuthentication`, which runs before the capture
starts. -/
def setupBiometricAuthenticationStart : Js Unit := do
  setupButton fun b => { b with disabled := true }
  setupButton fun b => { b with innerText := "Biometric data capturing..." }

/-- Function `setupBiometricAuthentication` of face-scan.js; `api` is what the face library
answers and `store` how the request settles, if one is issued. -/
def setupBiometricAuthentication (api : FaceApi) (store : FetchOutcome) : Js Unit := do
  setupBiometricAuthenticationStart
  Js.catch
    (do
      let capturedFaceData ← captureAndEncodeFace api
      let response ←
        (match capturedFaceData with
        | some faceData =>
          fetch
            { method := "POST", url := backend ++ "/store_biometric_data",
              headers := jsonHeaders, body := some (.faceData faceData) } store
        | none => Js.throw (.error "No face data captured."))
      if response.status = 200 then do
        setupButton fun b => { b with innerText := "Biometric data captured" }
        setupButton fun b => { b with color := "#fff" }
      else do
        consoleLog "Biometric data storage failed."
        setupButton fun b => { b with innerText := "Capture Failed" })
    (fun _ => do
      consoleLog "Biometric data capture error:"
      setupButton fun b => { b with innerText := "Capture Failed" })

/-- The synchronous part of `authenticateWithBiometrics`, which runs before the capture
starts. -/
def authenticateWithBiometricsStart : Js Unit := do
  authButton fun b => { b with classList := classRemove "btn-danger" b.classList }
  authButton fun b => { b with classList := classRemove "btn-success" b.classList }
  authButton fun b => { b with classList := classAdd "btn-primary" b.classList }
  authButton fun b => { b with disabled := true }
  authButton fun b => { b with innerText := "Authenticating..." }
  authButton fun b => { b with color := "#fff" }

/-- Function `authenticateWithBiometrics` of face-scan.js; `api` is what the face library
answers and `auth` how the request settles, if one is issued. -/
def authenticateWithBiometrics (B : Builtins) (api : FaceApi) (auth : FetchOutcome) :
    Js Unit := do
  authenticateWithBiometricsStart
  Js.catch
    (do
      let capturedFaceData ← captureAndEncodeFace api
      let response ←
        (match capturedFaceData with
        | some faceData =>
          fetch
            { method := "POST", url := backend ++ "/authenticate_with_biometrics",
              headers := jsonHeaders, body := some (.faceData faceData) } auth
        | none => Js.throw (.error "No face data captured for authentication."))
      if response.status = 200 then do
        consoleLog "Biometric authentication successful."
        displaySuccessfulMesssage "Biometric authentication successful."
        authButton fun b => { b with classList := classAdd "btn-success" b.classList }
        authButton fun b => { b with innerText := "Success!" }
        -- `response.json()` is not awaited: `data` is the promise itself
        let data := Value.promise
        setItem B "accessToken" (← Js.ofExcept (data.prop "access_token"))
        setItem B "refreshToken" (← Js.ofExcept (data.prop "refresh_token"))
        setTimeout "loadUserProfileContent" 3000
      else if response.status = 401 then do
        consoleLog "Biometric authentication failed."
        displayScanError "Biometric authentication failed."
        authButton fun b => { b with classList := classAdd "btn-danger" b.classList }
        authButton fun b => { b with innerText := "Try again" }
        authButton fun b => { b with disabled := false }
      else
        pure ())
    (fun error => do
      consoleLog "Biometric authentication error:"
      displayScanError (error.toStr B)
      authButton fun b => { b with classList := classAdd "btn-danger" b.classList }
      authButton fun b => { b with innerText := "Try again" }
      authButton fun b => { b with disabled := false })

/-! ## user-profile.js: logout and refresh -/

/-- The request of `handleLogout`. -/
def logoutRequest : Request :=
  { method := "POST", url := backend ++ "/user/logout", headers := jsonHeaders, body := none }

/-- The request of `refreshAccessToken`, carrying the stored refresh token. -/
def refreshRequest (refreshToken : String) : Request :=
  { method := "POST", url := backend ++ "/user/refresh_token", headers := jsonHeaders,
    body := some (.fields [("refreshToken", refreshToken)]) }

/-- The synchronous part of `handleLogout`: the request to `/user/logout` is issued. -/
def handleLogoutStart : Js Unit :=
  startFetch logoutRequest

/-- The promise chain of `handleLogout`, once the request has settled as `logout`. -/
def handleLogoutSettle (logout : FetchOutcome) : Js Unit :=
  Js.catch
    (do
      let _response ← await logout
      removeItem "accessToken"
      removeItem "refreshToken"
      loadSignUpForm)
    (fun _ => consoleLog "Error:")

/-- Function `handleLogout` of user-profile.js; `logout` is how the request settles. -/
def handleLogout (logout : FetchOutcome) : Js Unit := do
  handleLogoutStart
  handleLogoutSettle logout

/-- The synchronous part of `refreshAccessToken`; it returns whether the request to
`/user/refresh_token` was issued. -/
def refreshAccessTokenStart (B : Builtins) : Js Bool := do
  let refreshToken ← getItem "refreshToken"
  if !refreshToken.truthy then do
    consoleLog "No refresh token available. Please log in again."
    pure false
  else do
    startFetch (refreshRequest (refreshToken.toStr B))
    pure true

/-- The promise chain of `refreshAccessToken`, once its request has settled as `refresh`.
On a response that is not ok the first callback calls `handleLogout`, whose request is issued
at once; the chain of `handleLogout` settles later. -/
def refreshAccessTokenChain (B : Builtins) (refresh : FetchOutcome) : Js Unit :=
  Js.catch
    (do
      let response ← await refresh
      let data ←
        (if !response.ok then do
          consoleLog "Refresh token request failed. Please log in again."
          handleLogoutStart
          pure Value.undefined
        else
          response.awaitJson)
      if (← Js.ofExcept (data.prop "accessToken")).truthy then do
        setItem B "accessToken" (← Js.ofExcept (data.prop "access_token"))
        consoleLog "Access token refreshed."
      else
        pure ())
    (fun _ => consoleLog "Error:")

/-- Whether the chain of `refreshAccessToken` called `handleLogout`: it does so exactly on a
response that is not ok. -/
def logoutStarted (refresh : FetchOutcome) : Bool :=
  match refresh with
  | .resolved response => !response.ok
  | .rejected _ => false

/-- The chain of `refreshAccessToken` followed, when it called `handleLogout`, by the chain
of `handleLogout`, whose request settles as `logout`. -/
def refreshAccessTokenSettle (B : Builtins) (refresh logout : FetchOutcome) : Js Unit := do
  refreshAccessTokenChain B refresh
  if logoutStarted refresh then handleLogoutSettle logout else pure ()

/-- Function `refreshAccessToken` of user-profile.js, run until every chain it started has
settled. -/
def refreshAccessToken (B : Builtins) (refresh logout : FetchOutcome) : Js Unit := do
  if (← refreshAccessTokenStart B) then
    refreshAccessTokenSettle B refresh logout
  else
    pure ()

/-! ## user-profile.js: requests made with the stored access token

`handleDeleteAccount` and `fetchAndDisplayUserDetails` call `refreshAccessToken` without
waiting for it, then issue their own request.  The chains started this way settle in an order
chosen by the network, given as a `Race`. -/

/-- The order in which the handler's own request and the refresh it started settle. -/
inductive Race where
  | requestFirst
  | refreshFirst
  | logoutFirst

/-- Settling the handler's own chain `own` and, when a refresh request was issued, the chains
of `refreshAccessToken` and of the `handleLogout` it may call, in the order `race`:
own chain first; or refresh chain, own chain, logout chain; or refresh and logout chains
first. -/
def settleRace (B : Builtins) (refreshing : Bool) (refresh logout : FetchOutcome)
    (race : Race) (own : Js Unit) : Js Unit :=
  if refreshing then
    match race with
    | .requestFirst => do
      own
      refreshAccessTokenSettle B refresh logout
    | .refreshFirst => do
      refreshAccessTokenChain B refresh
      own
      if logoutStarted refresh then handleLogoutSettle logout else pure ()
    | .logoutFirst => do
      refreshAccessTokenSettle B refresh logout
      own
  else
    own

/-- The request of `handleDeleteAccount`. -/
def deleteRequest (token email : String) : Request :=
  { method := "DELETE", url := backend ++ "/user/delete_account",
    headers := [("Content-Type", "application/json"), ("Authorization", "Bearer " ++ token)],
    body := some (.fields [("email", email)]) }

/-- The request of `fetchAndDisplayUserDetails`. -/
def detailsRequest (token : String) : Request :=
  { method := "GET", url := backend ++ "/user/details",
    headers := [("Authorization", "Bearer " ++ token)], body := none }

/-- The promise chain of `handleDeleteAccount`, once its request has settled as `delete`. -/
def handleDeleteAccountChain (delete : FetchOutcome) : Js Unit :=
  Js.catch
    (do
      let response ← await delete
      if !response.ok then
        consoleLog "Account deletion failed"
      else do
        removeItem "accessToken"
        removeItem "refreshToken"
        loadSignUpForm)
    (fun _ => consoleLog "Error:")

/-- Function `handleDeleteAccount` of user-profile.js at clock reading `now`, run until every
chain it started has settled. -/
def handleDeleteAccount (B : Builtins) (now : Int) (refresh logout delete : FetchOutcome)
    (race : Race) : Js Unit := do
  let token ← getItem "accessToken"
  let userEmail ← Js.read fun w => w.dom.email
  let expired ← Js.ofExcept (isTokenExpired B now token)
  let refreshing ← (if expired then refreshAccessTokenStart B else pure false)
  if token.truthy then do
    startFetch (deleteRequest (token.toStr B) userEmail)
    settleRace B refreshing refresh logout race (handleDeleteAccountChain delete)
  else do
    consoleLog "User not logged in"
    settleRace B refreshing refresh logout race (pure ())

/-- A change of the profile fields. -/
def setProfile (f : Dom → Dom) : Js Unit :=
  Js.update fun w => { w with dom := f w.dom }

/-- The promise chain of `fetchAndDisplayUserDetails`, once its request has settled as
`details`. -/
def fetchAndDisplayUserDetailsChain (B : Builtins) (details : FetchOutcome) : Js Unit :=
  Js.catch
    (do
      let response ← await details
      let data ←
        (if !response.ok then do
          setProfile fun d => { d with username := "Guest" }
          setProfile fun d => { d with email := "N/A" }
          setProfile fun d => { d with userId := "N/A" }
          setProfile fun d => { d with accountCreationDate := "N/A" }
          pure (Value.json (.obj [("message", .str "User not found")]))
        else
          response.awaitJson)
      if (← Js.ofExcept (data.prop "message")).strictEqStr "success" then do
        let username ← Js.ofExcept ((← Js.ofExcept (data.prop "user")).prop "username")
        setProfile fun d => { d with username := username.toTextContent B }
        let email ← Js.ofExcept ((← Js.ofExcept (data.prop "user")).prop "email")
        setProfile fun d => { d with email := email.toTextContent B }
        let userId ← Js.ofExcept ((← Js.ofExcept (data.prop "user")).prop "userId")
        setProfile fun d => { d with userId := userId.toTextContent B }
        let created ←
          Js.ofExcept ((← Js.ofExcept (data.prop "user")).prop "accountCreationDate")
        setProfile fun d => { d with accountCreationDate := created.toTextContent B }
      else
        pure ())
    (fun _ => consoleLog "Error:")

/-- Function `fetchAndDisplayUserDetails` of user-profile.js at clock reading `now`, run until
every chain it started has settled. -/
def fetchAndDisplayUserDetails (B : Builtins) (now : Int)
    (refresh logout details : FetchOutcome) (race : Race) : Js Unit := do
  let token ← getItem "accessToken"
  let expired ← Js.ofExcept (isTokenExpired B now token)
  let refreshing ← (if expired then refreshAccessTokenStart B else pure false)
  if token.truthy then do
    startFetch (detailsRequest (token.toStr B))
    settleRace B refreshing refresh logout race (fetchAndDisplayUserDetailsChain B details)
  else
    settleRace B refreshing refresh logout race (pure ())

/-! ## Builtins and worlds used in the concrete instances -/

/-- Built-ins that decode two base64 strings and parse two JSON texts: the payloads with
`exp` equal to 10 seconds and to 10.5 seconds, the latter being the double `21 × 2^(-1)`. -/
def sampleBuiltins : Builtins where
  atob := fun s =>
    if s = "eyJleHAiOjEwfQ==" then some "\x7b\"exp\":10\x7d"
    else if s = "eyJleHAiOjEwLjV9" then some "\x7b\"exp\":10.5\x7d"
    else none
  jsonParse := fun s =>
    if s = "\x7b\"exp\":10\x7d" then some (.obj [("exp", .num (.finite 10 0))])
    else if s = "\x7b\"exp\":10.5\x7d" then some (.obj [("exp", .num (.finite 21 (-1)))])
    else none
  toNumber := fun _ => .nan
  toStr := fun _ => "[object Object]"
  errorText := fun _ => "TypeError"

/-- A button as the fragments declare it. -/
def sampleButton : Button :=
  { disabled := false, innerText := "Authenticate", color := "", classList := ["btn"] }

/-- A hidden, empty message element. -/
def sampleSpan : Span := { textContent := "", display := "none" }

/-- A document with filled-in forms. -/
def sampleDom : Dom :=
  { signUpEmail := "ann@example.org", signUpPassword := "pw1", signUpUsername := "ann",
    logInUsernameEmail := "ann", logInPassword := "pw1",
    error := sampleSpan, feedback := sampleSpan,
    setupBiometrics := sampleButton, authenticateBiometrics := sampleButton,
    username := "", email := "", userId := "", accountCreationDate := "" }

/-- A world whose local storage holds the two given entries, if any. -/
def sampleWorld (accessToken refreshToken : Option String) : World :=
  { storage := fun k =>
      if k = "accessToken" then accessToken
      else if k = "refreshToken" then refreshToken
      else none,
    dom := sampleDom, requests := [], console := [], timers := [] }

/-! ## Session check -/

/-- C1: `isAuthenticated` is true exactly when some value is stored under `accessToken`;
whatever string is written there gives true, and writing or removing any other key does not
change the result. -/
theorem isAuthenticated_iff_accessToken_stored (s : Storage) :
    (isAuthenticated s = true ↔ ∃ v, s.getItem "accessToken" = some v) ∧
    (∀ v, isAuthenticated (s.setItem "accessToken" v) = true) ∧
    (∀ k v, k ≠ "accessToken" → isAuthenticated (s.setItem k v) = isAuthenticated s) ∧
    (∀ k, k ≠ "accessToken" → isAuthenticated (s.removeItem k) = isAuthenticated s) := by
  refine ⟨?_, ?_, ?_, ?_⟩
  · unfold isAuthenticated Storage.getItem
    cases h : s "accessToken" <;> simp
  · intro v
    simp [isAuthenticated, Storage.getItem, Storage.setItem]
  · intro k v hk
    have hk2 : ¬ ("accessToken" = k) := fun h => hk h.symm
    simp [isAuthenticated, Storage.getItem, Storage.setItem, hk2]
  · intro k hk
    have hk2 : ¬ ("accessToken" = k) := fun h => hk h.symm
    simp [isAuthenticated, Storage.getItem, Storage.removeItem, hk2]

/-- C1 at a storage holding the empty string as access token and an unrelated key. -/
theorem isAuthenticated_iff_accessToken_stored_witness :
    isAuthenticated (Storage.setItem (fun _ => none) "accessToken" "") = true ∧
    isAuthenticated (Storage.setItem (fun _ => none) "theme" "dark") =
      isAuthenticated (fun _ => none) :=
  ⟨(isAuthenticated_iff_accessToken_stored (fun _ => none)).2.1 "",
   (isAuthenticated_iff_accessToken_stored (fun _ => none)).2.2.1 "theme" "dark" (by decide)⟩

/-! ## Token expiry -/

theorem splitDots_cons (c : Char) (cs : List Char) :
    splitDots (c :: cs) =
      match splitDots cs with
      | [] => if c = '.' then [[], []] else [[c]]
      | seg :: rest => if c = '.' then [] :: seg :: rest else (c :: seg) :: rest := rfl

theorem splitDots_ne_nil (cs : List Char) : splitDots cs ≠ [] := by
  cases cs with
  | nil => simp [splitDots]
  | cons c cs =>
    rw [splitDots_cons]
    split <;> split <;> simp

theorem splitDots_append_dot (h rest : List Char) (hh : '.' ∉ h) :
    splitDots (h ++ '.' :: rest) = h :: splitDots rest := by
  induction h with
  | nil =>
    show splitDots ('.' :: rest) = [] :: splitDots rest
    rw [splitDots_cons]
    cases hr : splitDots rest with
    | nil => exact absurd hr (splitDots_ne_nil rest)
    | cons seg tl => simp
  | cons c h ih =>
    have hc : c ≠ '.' := fun e => hh (by simp [e])
    have hh2 : '.' ∉ h := fun e => hh (by simp [e])
    show splitDots (c :: (h ++ '.' :: rest)) = (c :: h) :: splitDots rest
    rw [splitDots_cons, ih hh2]
    simp [hc]

theorem split_jwt (header payload signature : String)
    (hh : '.' ∉ header.toList) (hp : '.' ∉ payload.toList) :
    ∃ tl, Value.split (.json (.str (header ++ "." ++ payload ++ "." ++ signature)))
      = .ok (header :: payload :: tl) := by
  have e : (header ++ "." ++ payload ++ "." ++ signature).toList
      = header.toList ++ '.' :: (payload.toList ++ '.' :: signature.toList) := by
    simp
  refine ⟨(splitDots signature.toList).map String.mk, ?_⟩
  show Except.ok ((splitDots (header ++ "." ++ payload ++ "." ++ signature).toList).map
    String.mk) = _
  rw [e, splitDots_append_dot _ _ hh, splitDots_append_dot _ _ hp]
  simp

theorem bitLengthAux_le (fuel : Nat) : ∀ n k : Nat, n < 2 ^ k → bitLengthAux fuel n ≤ k := by
  induction fuel with
  | zero => intro n k _; exact Nat.zero_le _
  | succ fuel ih =>
    intro n k h
    show (if n = 0 then 0 else bitLengthAux fuel (n / 2) + 1) ≤ k
    split
    · exact Nat.zero_le _
    · rename_i hn
      cases k with
      | zero =>
        have : n < 1 := by simpa using h
        omega
      | succ k =>
        have h2 : n / 2 < 2 ^ k := by
          have : n < 2 ^ k * 2 := by rw [← pow_succ]; exact h
          omega
        have := ih (n / 2) k h2
        omega

theorem bitLength_le_of_lt (n k : Nat) (h : n < 2 ^ k) : bitLength n ≤ k :=
  bitLengthAux_le n n k h

theorem bitLengthAux_spec (fuel : Nat) :
    ∀ n : Nat, n ≤ fuel → n ≠ 0 →
      2 ^ (bitLengthAux fuel n - 1) ≤ n ∧ n < 2 ^ bitLengthAux fuel n := by
  induction fuel with
  | zero => intro n h hn; omega
  | succ fuel ih =>
    intro n h hn
    have hstep : bitLengthAux (fuel + 1) n = bitLengthAux fuel (n / 2) + 1 := by
      show (if n = 0 then 0 else bitLengthAux fuel (n / 2) + 1) = _
      rw [if_neg hn]
    rw [hstep]
    by_cases hhalf : n / 2 = 0
    · have h1 : n = 1 := by omega
      have hz : bitLengthAux fuel (n / 2) = 0 := by
        rw [hhalf]
        cases fuel with
        | zero => rfl
        | succ f => rfl
      rw [hz, h1]
      decide
    · obtain ⟨hlo, hhi⟩ := ih (n / 2) (by omega) hhalf
      have hpos : 1 ≤ bitLengthAux fuel (n / 2) := by
        by_contra hc
        have h0 : bitLengthAux fuel (n / 2) = 0 := by omega
        rw [h0] at hhi
        have : n / 2 < 1 := by simpa using hhi
        omega
      obtain ⟨b, hb⟩ : ∃ b, bitLengthAux fuel (n / 2) = b + 1 := ⟨_, (Nat.sub_add_cancel hpos).symm⟩
      rw [hb] at hlo hhi ⊢
      simp only [Nat.add_sub_cancel] at hlo ⊢
      have e1 : 2 ^ (b + 1) = 2 ^ b * 2 := pow_succ 2 b
      have e2 : 2 ^ (b + 1 + 1) = 2 ^ (b + 1) * 2 := pow_succ 2 (b + 1)
      constructor <;> omega

/-- The function `bitLength` counts binary digits: a positive `n` lies between
`2^(bitLength n - 1)` and `2^(bitLength n)`. -/
theorem bitLength_spec (n : Nat) (hn : n ≠ 0) :
    2 ^ (bitLength n - 1) ≤ n ∧ n < 2 ^ bitLength n :=
  bitLengthAux_spec n n (Nat.le_refl n) hn

theorem roundF64_exact (m e : Int) (hbits : bitLength m.natAbs ≤ 53) (hmin : -1074 ≤ e)
    (hmax : (bitLength m.natAbs : Int) + e ≤ 1024) : roundF64 m e = .finite m e := by
  have hs : max ((bitLength m.natAbs : Int) - 53) (-1074 - e) ≤ 0 := by
    apply max_le <;> omega
  have hsign : (if m < 0 then -(m.natAbs : Int) else (m.natAbs : Int)) = m := by
    split <;> omega
  have hover : ¬ ((bitLength m.natAbs : Int) + e > 1024) := by omega
  simp only [roundF64, hs, if_true, hover, if_false, hsign]

theorem jsGt_finite (a m e : Int) :
    jsGt a (.finite m e) = decide (finiteValue m e < (a : ℚ)) := by
  have h2 : ∀ k : Nat, (0 : ℚ) < (2 : ℚ) ^ k := fun k => by positivity
  show (if 0 ≤ e then decide (m * 2 ^ e.toNat < a) else decide (m < a * 2 ^ (-e).toNat))
    = decide (finiteValue m e < (a : ℚ))
  unfold finiteValue
  split
  · rename_i he
    obtain ⟨k, rfl⟩ := Int.eq_ofNat_of_zero_le he
    rw [decide_eq_decide]
    simp only [Int.toNat_ofNat, zpow_natCast]
    rw [← Int.cast_lt (R := ℚ)]
    push_cast
    rfl
  · rename_i he
    obtain ⟨k, hk⟩ : ∃ k : Nat, e = -(k : Int) := ⟨(-e).toNat, by omega⟩
    subst hk
    rw [decide_eq_decide]
    simp only [neg_neg, Int.toNat_ofNat, zpow_neg, zpow_natCast]
    rw [← Int.cast_lt (R := ℚ)]
    push_cast
    rw [← div_eq_mul_inv, div_lt_iff₀ (h2 k)]

/-- The product is rounded as the engine rounds it.  The exact product
72057594037929 × 1000 lies halfway between two doubles and goes to the even one,
72057594037928992 = 4503599627370562 × 2^4; and the double nearest to 0.009, which is
5188146770730811 × 2^(-59), times 1000 is the double 9 = 5066549580791808 × 2^(-49), so that at
a clock reading of 9 ms the comparison `9 > 9` is false. -/
theorem jsMul_rounds_to_nearest_even :
    jsMul (.finite 72057594037929 0) (.finite 1000 0) = .finite 4503599627370562 4 ∧
    jsMul (.finite 5188146770730811 (-59)) (.finite 1000 0)
      = .finite 5066549580791808 (-49) ∧
    finiteValue 5066549580791808 (-49) = 9 ∧
    jsGt 9 (jsMul (.finite 5188146770730811 (-59)) (.finite 1000 0)) = false := by
  refine ⟨by rfl, by rfl, ?_, by rfl⟩
  norm_num [finiteValue]

/-- C2: for a token `header.payload.signature` whose payload decodes to a JSON object with
the numeric claim `exp`, a double, `isTokenExpired` returns the comparison
`now > exp * 1000` of double arithmetic, in which the header and the signature play no part.
When the product is the finite double of value `p × 2^q`, that is true exactly when `now`
exceeds this value, so a product equal to `now` is not expired; and when the product is
exact, as it is for an integer `exp` with `|exp × 1000| < 2^53`, exactly when `now` exceeds
`exp × 1000`. -/
theorem isTokenExpired_iff_now_gt_exp (B : Builtins) (now : Int) (exp : F64)
    (header payload signature decoded : String) (fields : List (String × JVal))
    (hh : '.' ∉ header.toList) (hp : '.' ∉ payload.toList)
    (hdecode : B.atob payload = some decoded)
    (hparse : B.jsonParse decoded = some (.obj fields))
    (hexp : fields.lookup "exp" = some (.num exp)) :
    isTokenExpired B now (.json (.str (header ++ "." ++ payload ++ "." ++ signature)))
      = .ok (jsGt now (jsMul exp (.finite 1000 0))) ∧
    (∀ p q : Int, jsMul exp (.finite 1000 0) = .finite p q →
      isTokenExpired B now (.json (.str (header ++ "." ++ payload ++ "." ++ signature)))
        = .ok (decide ((now : ℚ) > finiteValue p q))) ∧
    (∀ m e p q : Int, exp = .finite m e → jsMul exp (.finite 1000 0) = .finite p q →
      finiteValue p q = finiteValue m e * 1000 →
      isTokenExpired B now (.json (.str (header ++ "." ++ payload ++ "." ++ signature)))
        = .ok (decide ((now : ℚ) > finiteValue m e * 1000))) ∧
    (∀ n : Int, exp = .finite n 0 → (n * 1000).natAbs < 2 ^ 53 →
      isTokenExpired B now (.json (.str (header ++ "." ++ payload ++ "." ++ signature)))
        = .ok (decide (now > n * 1000))) := by
  obtain ⟨tl, hsplit⟩ := split_jwt header payload signature hh hp
  have hne : (header ++ "." ++ payload ++ "." ++ signature) ≠ "" := by
    intro h
    have := congrArg String.toList h
    simp at this
  have hmain : isTokenExpired B now
      (.json (.str (header ++ "." ++ payload ++ "." ++ signature)))
      = .ok (jsGt now (jsMul exp (.finite 1000 0))) := by
    simp [isTokenExpired, Value.truthy, hne, hsplit, bind, Except.bind, hdecode, hparse,
      Value.prop, fieldValue, hexp, Value.toNumber]
  refine ⟨hmain, ?_, ?_, ?_⟩
  · intro p q hpq
    rw [hmain, hpq, jsGt_finite]
  · intro m e p q _ hpq hexact
    rw [hmain, hpq, jsGt_finite, hexact]
  · intro n hn hbound
    have hround : roundF64 (n * 1000) 0 = .finite (n * 1000) 0 := by
      have hb := bitLength_le_of_lt _ 53 hbound
      apply roundF64_exact
      · exact hb
      · omega
      · omega
    have hmul : jsMul exp (.finite 1000 0) = .finite (n * 1000) 0 := by
      rw [hn]
      show roundF64 (n * 1000) (0 + 0) = _
      exact hround
    rw [hmain, hmul]
    simp [jsGt]

/-- C2 at the token `h.eyJleHAiOjEwfQ==.s`, whose payload carries `exp` = 10, read at
10000 ms (not expired) and at 10001 ms (expired), and at the token `h.eyJleHAiOjEwLjV9.s`,
whose payload carries `exp` = 10.5, read at 10500 ms (not expired) and at 10501 ms
(expired). -/
theorem isTokenExpired_iff_now_gt_exp_witness :
    isTokenExpired sampleBuiltins 10000
        (.json (.str ("h" ++ "." ++ "eyJleHAiOjEwfQ==" ++ "." ++ "s")))
      = .ok (decide ((10000 : Int) > 10 * 1000)) ∧
    isTokenExpired sampleBuiltins 10001
        (.json (.str ("h" ++ "." ++ "eyJleHAiOjEwfQ==" ++ "." ++ "s")))
      = .ok (decide ((10001 : Int) > 10 * 1000)) ∧
    isTokenExpired sampleBuiltins 10500
        (.json (.str ("h" ++ "." ++ "eyJleHAiOjEwLjV9" ++ "." ++ "s")))
      = .ok (decide (((10500 : Int) : ℚ) > finiteValue 21 (-1) * 1000)) ∧
    isTokenExpired sampleBuiltins 10500
        (.json (.str ("h" ++ "." ++ "eyJleHAiOjEwLjV9" ++ "." ++ "s")))
      = .ok false ∧
    isTokenExpired sampleBuiltins 10501
        (.json (.str ("h" ++ "." ++ "eyJleHAiOjEwLjV9" ++ "." ++ "s")))
      = .ok true :=
  ⟨(isTokenExpired_iff_now_gt_exp sampleBuiltins 10000 (.finite 10 0) "h" "eyJleHAiOjEwfQ=="
      "s" "\x7b\"exp\":10\x7d" [("exp", .num (.finite 10 0))] (by decide) (by decide) rfl rfl
      rfl).2.2.2 10 rfl (by decide),
   (isTokenExpired_iff_now_gt_exp sampleBuiltins 10001 (.finite 10 0) "h" "eyJleHAiOjEwfQ=="
      "s" "\x7b\"exp\":10\x7d" [("exp", .num (.finite 10 0))] (by decide) (by decide) rfl rfl
      rfl).2.2.2 10 rfl (by decide),
   (isTokenExpired_iff_now_gt_exp sampleBuiltins 10500 (.finite 21 (-1)) "h" "eyJleHAiOjEwLjV9"
      "s" "\x7b\"exp\":10.5\x7d" [("exp", .num (.finite 21 (-1)))] (by decide) (by decide) rfl
      rfl rfl).2.2.1 21 (-1) 21000 (-1) rfl (by rfl) (by norm_num [finiteValue]),
   (isTokenExpired_iff_now_gt_exp sampleBuiltins 10500 (.finite 21 (-1)) "h" "eyJleHAiOjEwLjV9"
      "s" "\x7b\"exp\":10.5\x7d" [("exp", .num (.finite 21 (-1)))] (by decide) (by decide) rfl
      rfl rfl).1,
   (isTokenExpired_iff_now_gt_exp sampleBuiltins 10501 (.finite 21 (-1)) "h" "eyJleHAiOjEwLjV9"
      "s" "\x7b\"exp\":10.5\x7d" [("exp", .num (.finite 21 (-1)))] (by decide) (by decide) rfl
      rfl rfl).1⟩

/-- C3: for a `null` or `undefined` token `isTokenExpired` returns true at every clock
reading and whatever the decoding built-ins do, so nothing is split or decoded and nothing is
thrown. -/
theorem isTokenExpired_null_undefined (B : Builtins) (now : Int) :
    isTokenExpired B now (.json .null) = .ok true ∧
    isTokenExpired B now .undefined = .ok true := by
  constructor <;> rfl

/-! ## Login and registration -/

/-- C4: after a `/user/login` response whose body has message "Login successful",
`access_token` = a and `refresh_token` = r, both login inputs are empty and local storage
holds `accessToken` = a and `refreshToken` = r. -/
theorem handleLogIn_success_clears_and_stores (B : Builtins) (w : World) (status : Nat)
    (fields : List (String × JVal)) (a r : String)
    (hmessage : fields.lookup "message" = some (.str "Login successful"))
    (ha : fields.lookup "access_token" = some (.str a))
    (hr : fields.lookup "refresh_token" = some (.str r)) :
    ((handleLogIn B (.resolved { status := status, json := some (.obj fields) })).settle
        w).dom.logInUsernameEmail = "" ∧
    ((handleLogIn B (.resolved { status := status, json := some (.obj fields) })).settle
        w).dom.logInPassword = "" ∧
    ((handleLogIn B (.resolved { status := status, json := some (.obj fields) })).settle
        w).storage.getItem "accessToken" = some a ∧
    ((handleLogIn B (.resolved { status := status, json := some (.obj fields) })).settle
        w).storage.getItem "refreshToken" = some r := by
  simp [handleLogIn, Js.settle, Js.catch, bind, Js.andThen, pure, Js.ret, Js.read, Js.update,
    Js.ofExcept, fetch, startFetch, await, Response.awaitJson, Value.prop, fieldValue,
    hmessage, ha, hr,
    Value.strictEqStr, setItem, loadUserProfileContent, Value.toStr, Storage.getItem,
    Storage.setItem]

/-- C4 at a 200 response carrying the tokens `a1` and `r1`, received with nothing stored. -/
theorem handleLogIn_success_clears_and_stores_witness :
    ((handleLogIn sampleBuiltins (.resolved { status := 200, json := some (.obj
        [("message", .str "Login successful"), ("access_token", .str "a1"),
         ("refresh_token", .str "r1")]) })).settle
        (sampleWorld none none)).dom.logInUsernameEmail = "" ∧
    ((handleLogIn sampleBuiltins (.resolved { status := 200, json := some (.obj
        [("message", .str "Login successful"), ("access_token", .str "a1"),
         ("refresh_token", .str "r1")]) })).settle
        (sampleWorld none none)).dom.logInPassword = "" ∧
    ((handleLogIn sampleBuiltins (.resolved { status := 200, json := some (.obj
        [("message", .str "Login successful"), ("access_token", .str "a1"),
         ("refresh_token", .str "r1")]) })).settle
        (sampleWorld none none)).storage.getItem "accessToken" = some "a1" ∧
    ((handleLogIn sampleBuiltins (.resolved { status := 200, json := some (.obj
        [("message", .str "Login successful"), ("access_token", .str "a1"),
         ("refresh_token", .str "r1")]) })).settle
        (sampleWorld none none)).storage.getItem "refreshToken" = some "r1" :=
  handleLogIn_success_clears_and_stores sampleBuiltins (sampleWorld none none) 200
    [("message", .str "Login successful"), ("access_token", .str "a1"),
     ("refresh_token", .str "r1")] "a1" "r1" rfl rfl rfl

/-! ## Biometric enrolment and authentication -/

/-- C5: when the capture yields a descriptor and `/authenticate_with_biometrics` answers 401,
the authenticate button ends enabled with text "Try again", and local storage, in particular
its `accessToken` and `refreshToken` entries, is what it was before the call. -/
theorem authenticateWithBiometrics_401_try_again (B : Builtins) (w : World) (api : FaceApi)
    (d : FaceDescriptor) (body : Option JVal)
    (hcapture : (captureAndEncodeFace api w).1 = .ok (some d)) :
    ((authenticateWithBiometrics B api (.resolved { status := 401, json := body })).settle
        w).dom.authenticateBiometrics.disabled = false ∧
    ((authenticateWithBiometrics B api (.resolved { status := 401, json := body })).settle
        w).dom.authenticateBiometrics.innerText = "Try again" ∧
    ((authenticateWithBiometrics B api (.resolved { status := 401, json := body })).settle
        w).storage.getItem "accessToken" = w.storage.getItem "accessToken" ∧
    ((authenticateWithBiometrics B api (.resolved { status := 401, json := body })).settle
        w).storage.getItem "refreshToken" = w.storage.getItem "refreshToken" ∧
    ((authenticateWithBiometrics B api (.resolved { status := 401, json := body })).settle
        w).storage = w.storage := by
  cases api with
  | loadFailed reason => simp [captureAndEncodeFace, Js.throw] at hcapture
  | detectFailed reason => simp [captureAndEncodeFace, Js.throw] at hcapture
  | detections ds =>
    cases ds with
    | nil =>
      simp [captureAndEncodeFace, bind, Js.andThen, pure, Js.ret, consoleLog, Js.update]
        at hcapture
    | cons d0 tl =>
      simp [authenticateWithBiometrics, authenticateWithBiometricsStart, Js.settle, Js.catch,
        bind, Js.andThen, pure, Js.ret,
        Js.update, authButton, captureAndEncodeFace, fetch, startFetch, await, consoleLog,
        displayScanError]

/-- C5 at a capture with one detected face and tokens `a0`, `r0` stored. -/
theorem authenticateWithBiometrics_401_try_again_witness :
    ((authenticateWithBiometrics sampleBuiltins (.detections [[1, 2, 3]])
        (.resolved { status := 401, json := none })).settle
        (sampleWorld (some "a0") (some "r0"))).dom.authenticateBiometrics.disabled = false ∧
    ((authenticateWithBiometrics sampleBuiltins (.detections [[1, 2, 3]])
        (.resolved { status := 401, json := none })).settle
        (sampleWorld (some "a0") (some "r0"))).dom.authenticateBiometrics.innerText
        = "Try again" ∧
    ((authenticateWithBiometrics sampleBuiltins (.detections [[1, 2, 3]])
        (.resolved { status := 401, json := none })).settle
        (sampleWorld (some "a0") (some "r0"))).storage.getItem "accessToken" = some "a0" ∧
    ((authenticateWithBiometrics sampleBuiltins (.detections [[1, 2, 3]])
        (.resolved { status := 401, json := none })).settle
        (sampleWorld (some "a0") (some "r0"))).storage.getItem "refreshToken" = some "r0" :=
  have h := authenticateWithBiometrics_401_try_again sampleBuiltins
    (sampleWorld (some "a0") (some "r0")) (.detections [[1, 2, 3]]) [1, 2, 3] none rfl
  ⟨h.1, h.2.1, h.2.2.1, h.2.2.2.1⟩

/-- C6: when the capture resolves to `null`, `setupBiometricAuthentication` issues no request
at all, however a request would have settled, and ends in the failure branch: the error is
logged and the setup button reads "Capture Failed". -/
theorem setupBiometricAuthentication_no_face (w : World) (api : FaceApi) (store : FetchOutcome)
    (hcapture : (captureAndEncodeFace api w).1 = .ok none) :
    ((setupBiometricAuthentication api store).settle w).requests = w.requests ∧
    ((setupBiometricAuthentication api store).settle w).console
      = w.console ++ ["No face detected.", "Biometric data capture error:"] ∧
    ((setupBiometricAuthentication api store).settle w).dom.setupBiometrics.innerText
      = "Capture Failed" := by
  cases api with
  | loadFailed reason => simp [captureAndEncodeFace, Js.throw] at hcapture
  | detectFailed reason => simp [captureAndEncodeFace, Js.throw] at hcapture
  | detections ds =>
    cases ds with
    | cons d0 tl => simp [captureAndEncodeFace, pure, Js.ret] at hcapture
    | nil =>
      simp [setupBiometricAuthentication, setupBiometricAuthenticationStart, Js.settle,
        Js.catch, bind, Js.andThen, pure, Js.ret,
        Js.update, setupButton, captureAndEncodeFace, Js.throw, consoleLog]

/-- C6 at a capture that detects no face, with a request that would have been answered 200. -/
theorem setupBiometricAuthentication_no_face_witness :
    ((setupBiometricAuthentication (.detections [])
        (.resolved { status := 200, json := none })).settle (sampleWorld none none)).requests
      = [] ∧
    ((setupBiometricAuthentication (.detections [])
        (.resolved { status := 200, json := none })).settle (sampleWorld none none)).console
      = ["No face detected.", "Biometric data capture error:"] ∧
    ((setupBiometricAuthentication (.detections [])
        (.resolved { status := 200, json := none })).settle
        (sampleWorld none none)).dom.setupBiometrics.innerText = "Capture Failed" :=
  setupBiometricAuthentication_no_face (sampleWorld none none) (.detections [])
    (.resolved { status := 200, json := none }) rfl

/-! ## Refreshing the access token -/

/-- C7, as stated, fails: with tokens `a0` and `r0` stored, a 401 answer to
`/user/refresh_token` and a rejected `/user/logout` request, `handleLogout` is invoked (its
request is issued) and the flow settles, yet both entries are still in local storage. -/
theorem refreshAccessToken_logout_rejected_keeps_tokens :
    (sampleWorld (some "a0") (some "r0")).storage.getItem "refreshToken" = some "r0" ∧
    Response.ok { status := 401, json := none } = false ∧
    ((refreshAccessToken sampleBuiltins (.resolved { status := 401, json := none })
        (.rejected "Failed to fetch")).settle (sampleWorld (some "a0") (some "r0"))).requests
      = [refreshRequest "r0", logoutRequest] ∧
    ((refreshAccessToken sampleBuiltins (.resolved { status := 401, json := none })
        (.rejected "Failed to fetch")).settle
        (sampleWorld (some "a0") (some "r0"))).storage.getItem "accessToken" = some "a0" ∧
    ((refreshAccessToken sampleBuiltins (.resolved { status := 401, json := none })
        (.rejected "Failed to fetch")).settle
        (sampleWorld (some "a0") (some "r0"))).storage.getItem "refreshToken" = some "r0" ∧
    ¬ (((refreshAccessToken sampleBuiltins (.resolved { status := 401, json := none })
        (.rejected "Failed to fetch")).settle
        (sampleWorld (some "a0") (some "r0"))).storage.getItem "accessToken" = none ∧
      ((refreshAccessToken sampleBuiltins (.resolved { status := 401, json := none })
        (.rejected "Failed to fetch")).settle
        (sampleWorld (some "a0") (some "r0"))).storage.getItem "refreshToken" = none) := by
  refine ⟨rfl, rfl, rfl, rfl, rfl, ?_⟩
  intro h
  exact absurd h.1 (by
    show ¬ ((some "a0" : Option String) = none)
    simp)

/-- C7, amended: when a non-empty refresh token is stored and `/user/refresh_token` answers
with a response that is not ok, `refreshAccessToken` invokes `handleLogout`, whose request to
`/user/logout` is issued; if that request resolves, with any status, both entries are removed
from local storage, and if it is rejected local storage is left as it was. -/
theorem refreshAccessToken_failure_logs_out (B : Builtins) (w : World) (refreshToken : String)
    (response logoutResponse : Response) (reason : String)
    (hstored : w.storage.getItem "refreshToken" = some refreshToken)
    (hnonempty : refreshToken ≠ "")
    (hfailed : response.ok = false) :
    ((refreshAccessToken B (.resolved response) (.resolved logoutResponse)).settle w).requests
      = w.requests ++ [refreshRequest refreshToken, logoutRequest,
          fragmentRequest "signup.html"] ∧
    ((refreshAccessToken B (.resolved response) (.resolved logoutResponse)).settle
        w).storage.getItem "accessToken" = none ∧
    ((refreshAccessToken B (.resolved response) (.resolved logoutResponse)).settle
        w).storage.getItem "refreshToken" = none ∧
    ((refreshAccessToken B (.resolved response) (.rejected reason)).settle w).requests
      = w.requests ++ [refreshRequest refreshToken, logoutRequest] ∧
    ((refreshAccessToken B (.resolved response) (.rejected reason)).settle w).storage
      = w.storage := by
  have hget : w.storage "refreshToken" = some refreshToken := hstored
  simp [refreshAccessToken, refreshAccessTokenStart, refreshAccessTokenSettle, Js.settle,
    Js.catch, bind, Js.andThen, pure, Js.ret, Js.update, Js.read, Js.ofExcept, Js.throw,
    refreshAccessTokenChain, logoutStarted,
    getItem, Storage.getItem, hget, ofItem, Value.truthy, hnonempty, startFetch, await,
    hfailed, consoleLog, handleLogoutStart, handleLogoutSettle, Value.prop, removeItem,
    Storage.removeItem, loadSignUpForm, Value.toStr]

/-- C7, amended, at tokens `a0`, `r0`, a 401 refresh answer, and a logout request answered
500 or rejected. -/
theorem refreshAccessToken_failure_logs_out_witness :
    ((refreshAccessToken sampleBuiltins (.resolved { status := 401, json := none })
        (.resolved { status := 500, json := none })).settle
        (sampleWorld (some "a0") (some "r0"))).storage.getItem "accessToken" = none ∧
    ((refreshAccessToken sampleBuiltins (.resolved { status := 401, json := none })
        (.resolved { status := 500, json := none })).settle
        (sampleWorld (some "a0") (some "r0"))).storage.getItem "refreshToken" = none ∧
    ((refreshAccessToken sampleBuiltins (.resolved { status := 401, json := none })
        (.rejected "Failed to fetch")).settle (sampleWorld (some "a0") (some "r0"))).storage
      = (sampleWorld (some "a0") (some "r0")).storage :=
  have h := refreshAccessToken_failure_logs_out sampleBuiltins
    (sampleWorld (some "a0") (some "r0")) "r0" { status := 401, json := none }
    { status := 500, json := none } "Failed to fetch" rfl (by decide) rfl
  ⟨h.2.1, h.2.2.1, h.2.2.2.2⟩

/-- C8 fails on the code: with `old` and `r0` stored and an ok answer whose body is the
object with the single field `accessToken` = `t1`, `refreshAccessToken` tests
`data.accessToken` but writes `data.access_token`, so the `accessToken` entry becomes the
string `undefined` instead of `t1`; the `refreshToken` entry is unchanged. -/
theorem refreshAccessToken_ok_stores_undefined :
    Response.ok { status := 200, json := some (.obj [("accessToken", .str "t1")]) } = true ∧
    ((refreshAccessToken sampleBuiltins
        (.resolved { status := 200, json := some (.obj [("accessToken", .str "t1")]) })
        (.rejected "unused")).settle
        (sampleWorld (some "old") (some "r0"))).storage.getItem "accessToken"
      = some "undefined" ∧
    ((refreshAccessToken sampleBuiltins
        (.resolved { status := 200, json := some (.obj [("accessToken", .str "t1")]) })
        (.rejected "unused")).settle
        (sampleWorld (some "old") (some "r0"))).storage.getItem "refreshToken"
      = some "r0" ∧
    ((refreshAccessToken sampleBuiltins
        (.resolved { status := 200, json := some (.obj [("accessToken", .str "t1")]) })
        (.rejected "unused")).settle
        (sampleWorld (some "old") (some "r0"))).requests = [refreshRequest "r0"] :=
  ⟨rfl, rfl, rfl, rfl⟩

/-- C9 fails on the code: with a detected face and a 200 answer whose body carries
`access_token` = `a1` and `refresh_token` = `r1`, `authenticateWithBiometrics` reads the
two fields from the promise returned by `response.json()`, which it does not await, so both
entries of local storage become the string `undefined`. -/
theorem authenticateWithBiometrics_200_stores_undefined :
    ((authenticateWithBiometrics sampleBuiltins (.detections [[1, 2, 3]])
        (.resolved { status := 200, json := some (.obj
          [("access_token", .str "a1"), ("refresh_token", .str "r1")]) })).settle
        (sampleWorld none none)).storage.getItem "accessToken" = some "undefined" ∧
    ((authenticateWithBiometrics sampleBuiltins (.detections [[1, 2, 3]])
        (.resolved { status := 200, json := some (.obj
          [("access_token", .str "a1"), ("refresh_token", .str "r1")]) })).settle
        (sampleWorld none none)).storage.getItem "refreshToken" = some "undefined" ∧
    ((authenticateWithBiometrics sampleBuiltins (.detections [[1, 2, 3]])
        (.resolved { status := 200, json := some (.obj
          [("access_token", .str "a1"), ("refresh_token", .str "r1")]) })).settle
        (sampleWorld none none)).dom.authenticateBiometrics.innerText = "Success!" :=
  ⟨rfl, rfl, rfl⟩

/-! ## The forms branch on the message, not on the status -/

/-- C10: in `handleSignUp` and `handleLogIn`, for a response body with message string `m`
and for every HTTP status, the settled world does not depend on the status; if `m` is not the
success string of the handler, local storage and the input fields are unchanged and the error
element is shown with text `m`; if `m` is the success string, `accessToken` and
`refreshToken` are written from the fields `access_token` and `refresh_token` of the body. -/
theorem form_outcome_decided_by_message (B : Builtins) (w : World) (status other : Nat)
    (fields : List (String × JVal)) (m : String)
    (hmessage : fields.lookup "message" = some (.str m)) :
    (((handleSignUp B (.resolved { status := status, json := some (.obj fields) })).settle w) = (handleSignUp B (.resolved { status := other, json := some (.obj fields) })).settle w
      ∧ ((handleLogIn B (.resolved { status := status, json := some (.obj fields) })).settle w) = (handleLogIn B (.resolved { status := other, json := some (.obj fields) })).settle w)
    ∧ (m ≠ "Registration successful" →
        ((handleSignUp B (.resolved { status := status, json := some (.obj fields) })).settle w).storage = w.storage ∧
        ((handleSignUp B (.resolved { status := status, json := some (.obj fields) })).settle w).dom.signUpUsername = w.dom.signUpUsername ∧
        ((handleSignUp B (.resolved { status := status, json := some (.obj fields) })).settle w).dom.signUpEmail = w.dom.signUpEmail ∧
        ((handleSignUp B (.resolved { status := status, json := some (.obj fields) })).settle w).dom.signUpPassword = w.dom.signUpPassword ∧
        ((handleSignUp B (.resolved { status := status, json := some (.obj fields) })).settle w).dom.error = { textContent := m, display := "block" })
    ∧ (m = "Registration successful" →
        ((handleSignUp B (.resolved { status := status, json := some (.obj fields) })).settle w).storage.getItem "accessToken" = some ((fieldValue fields "access_token").toStr B) ∧
        ((handleSignUp B (.resolved { status := status, json := some (.obj fields) })).settle w).storage.getItem "refreshToken"
          = some ((fieldValue fields "refresh_token").toStr B))
    ∧ (m ≠ "Login successful" →
        ((handleLogIn B (.resolved { status := status, json := some (.obj fields) })).settle w).storage = w.storage ∧
        ((handleLogIn B (.resolved { status := status, json := some (.obj fields) })).settle w).dom.logInUsernameEmail = w.dom.logInUsernameEmail ∧
        ((handleLogIn B (.resolved { status := status, json := some (.obj fields) })).settle w).dom.logInPassword = w.dom.logInPassword ∧
        ((handleLogIn B (.resolved { status := status, json := some (.obj fields) })).settle w).dom.error = { textContent := m, display := "block" })
    ∧ (m = "Login successful" →
        ((handleLogIn B (.resolved { status := status, json := some (.obj fields) })).settle w).storage.getItem "accessToken" = some ((fieldValue fields "access_token").toStr B) ∧
        ((handleLogIn B (.resolved { status := status, json := some (.obj fields) })).settle w).storage.getItem "refreshToken"
          = some ((fieldValue fields "refresh_token").toStr B)) := by
  refine ⟨⟨rfl, rfl⟩, ?_, ?_, ?_, ?_⟩
  · intro hne
    simp [handleSignUp, Js.settle, Js.catch, bind, Js.andThen, pure, Js.ret, Js.read,
      Js.update, Js.ofExcept, fetch, startFetch, await, Response.awaitJson, Value.prop,
      fieldValue, hmessage, Value.strictEqStr, hne, displayError, Value.toTextContent,
      Value.toStr]
  · intro heq
    subst heq
    simp [handleSignUp, Js.settle, Js.catch, bind, Js.andThen, pure, Js.ret, Js.read,
      Js.update, Js.ofExcept, fetch, startFetch, await, Response.awaitJson, Value.prop,
      fieldValue, hmessage, Value.strictEqStr, setItem, loadFaceScanContent,
      Storage.getItem, Storage.setItem]
  · intro hne
    simp [handleLogIn, Js.settle, Js.catch, bind, Js.andThen, pure, Js.ret, Js.read,
      Js.update, Js.ofExcept, fetch, startFetch, await, Response.awaitJson, Value.prop,
      fieldValue, hmessage, Value.strictEqStr, hne, displayError, Value.toTextContent,
      Value.toStr]
  · intro heq
    subst heq
    simp [handleLogIn, Js.settle, Js.catch, bind, Js.andThen, pure, Js.ret, Js.read,
      Js.update, Js.ofExcept, fetch, startFetch, await, Response.awaitJson, Value.prop,
      fieldValue, hmessage, Value.strictEqStr, setItem, loadUserProfileContent,
      Storage.getItem, Storage.setItem]

/-- C10 at a 401 answer with message `Invalid credentials` and at a 500 answer carrying the
success string together with the tokens `a1` and `r1`. -/
theorem form_outcome_decided_by_message_witness :
    ((handleLogIn sampleBuiltins (.resolved { status := 401, json := some (.obj
        [("message", .str "Invalid credentials")]) })).settle
        (sampleWorld none none)).storage = (sampleWorld none none).storage ∧
    ((handleLogIn sampleBuiltins (.resolved { status := 401, json := some (.obj
        [("message", .str "Invalid credentials")]) })).settle
        (sampleWorld none none)).dom.error
      = { textContent := "Invalid credentials", display := "block" } ∧
    ((handleSignUp sampleBuiltins (.resolved { status := 401, json := some (.obj
        [("message", .str "Invalid credentials")]) })).settle
        (sampleWorld none none)).dom.signUpPassword = "pw1" ∧
    ((handleLogIn sampleBuiltins (.resolved { status := 500, json := some (.obj
        [("message", .str "Login successful"), ("access_token", .str "a1"),
         ("refresh_token", .str "r1")]) })).settle
        (sampleWorld none none)).storage.getItem "accessToken" = some "a1" ∧
    ((handleSignUp sampleBuiltins (.resolved { status := 500, json := some (.obj
        [("message", .str "Registration successful"), ("access_token", .str "a1"),
         ("refresh_token", .str "r1")]) })).settle
        (sampleWorld none none)).storage.getItem "refreshToken" = some "r1" :=
  have hfail := form_outcome_decided_by_message sampleBuiltins (sampleWorld none none) 401 200
    [("message", .str "Invalid credentials")] "Invalid credentials" rfl
  have hlogin := form_outcome_decided_by_message sampleBuiltins (sampleWorld none none) 500 200
    [("message", .str "Login successful"), ("access_token", .str "a1"),
     ("refresh_token", .str "r1")] "Login successful" rfl
  have hsignup := form_outcome_decided_by_message sampleBuiltins (sampleWorld none none) 500 200
    [("message", .str "Registration successful"), ("access_token", .str "a1"),
     ("refresh_token", .str "r1")] "Registration successful" rfl
  ⟨(hfail.2.2.2.1 (by decide)).1, (hfail.2.2.2.1 (by decide)).2.2.2,
   (hfail.2.1 (by decide)).2.2.2.1, (hlogin.2.2.2.2 rfl).1, (hsignup.2.2.1 rfl).2⟩

/-! ## The button of the biometric flows -/

/-- C11, as stated, fails: `setupBiometricAuthentication` never enables its button again.
Started with the button enabled, it ends with the button disabled when no face is captured,
when the response status is 500 and when the request is rejected. -/
theorem setupBiometricAuthentication_failure_stays_disabled :
    (sampleWorld none none).dom.setupBiometrics.disabled = false ∧
    ((setupBiometricAuthentication (.detections [])
        (.rejected "unused")).settle (sampleWorld none none)).dom.setupBiometrics.disabled
      = true ∧
    ((setupBiometricAuthentication (.detections [[1, 2, 3]])
        (.resolved { status := 500, json := none })).settle
        (sampleWorld none none)).dom.setupBiometrics.disabled = true ∧
    ((setupBiometricAuthentication (.detections [[1, 2, 3]])
        (.rejected "Failed to fetch")).settle
        (sampleWorld none none)).dom.setupBiometrics.disabled = true ∧
    ¬ (((setupBiometricAuthentication (.detections [])
        (.rejected "unused")).settle (sampleWorld none none)).dom.setupBiometrics.disabled
      = false) := by
  refine ⟨rfl, rfl, rfl, rfl, ?_⟩
  show ¬ (true = false)
  simp

/-- The authenticate button after a response whose status is neither 200 nor 401: with
status 500 no branch of `authenticateWithBiometrics` runs, and the button stays disabled with
the text set at the start. -/
theorem authenticateWithBiometrics_500_stays_disabled :
    ((authenticateWithBiometrics sampleBuiltins (.detections [[1, 2, 3]])
        (.resolved { status := 500, json := none })).settle
        (sampleWorld none none)).dom.authenticateBiometrics.disabled = true ∧
    ((authenticateWithBiometrics sampleBuiltins (.detections [[1, 2, 3]])
        (.resolved { status := 500, json := none })).settle
        (sampleWorld none none)).dom.authenticateBiometrics.innerText = "Authenticating..." :=
  ⟨rfl, rfl⟩

/-- C11, amended: both flows disable their button when they start.
`setupBiometricAuthentication` never enables it again: the button is disabled when the flow
has finished, at every outcome.  `authenticateWithBiometrics` leaves the button disabled on
status 200, and enables it again when no face is captured, when the capture or the request is
rejected, and when the response status is 401. -/
theorem biometric_button_enabled_again_only_on_failure (B : Builtins) (w : World)
    (api : FaceApi) (outcome : FetchOutcome) (d : FaceDescriptor) (ds : List FaceDescriptor)
    (body : Option JVal) (reason : String) :
    (setupBiometricAuthenticationStart.settle w).dom.setupBiometrics.disabled = true ∧
    (authenticateWithBiometricsStart.settle w).dom.authenticateBiometrics.disabled = true ∧
    ((setupBiometricAuthentication api outcome).settle w).dom.setupBiometrics.disabled
      = true ∧
    ((authenticateWithBiometrics B (.detections (d :: ds)) (.resolved { status := 200, json := body })).settle
        w).dom.authenticateBiometrics.disabled = true ∧
    ((authenticateWithBiometrics B (.detections (d :: ds)) (.resolved { status := 401, json := body })).settle
        w).dom.authenticateBiometrics.disabled = false ∧
    ((authenticateWithBiometrics B (.detections (d :: ds)) (.rejected reason)).settle
        w).dom.authenticateBiometrics.disabled = false ∧
    ((authenticateWithBiometrics B (.detections []) outcome).settle
        w).dom.authenticateBiometrics.disabled = false ∧
    ((authenticateWithBiometrics B (.loadFailed reason) outcome).settle
        w).dom.authenticateBiometrics.disabled = false ∧
    ((authenticateWithBiometrics B (.detectFailed reason) outcome).settle
        w).dom.authenticateBiometrics.disabled = false := by
  refine ⟨rfl, rfl, ?_, ?_, ?_, ?_, ?_, ?_, ?_⟩
  · cases api with
    | loadFailed r => rfl
    | detectFailed r => rfl
    | detections l =>
      cases l with
      | nil => rfl
      | cons d0 tl =>
        cases outcome with
        | rejected r => rfl
        | resolved r =>
          by_cases h : r.status = 200 <;>
          simp [setupBiometricAuthentication, setupBiometricAuthenticationStart, Js.settle,
            Js.catch, bind, Js.andThen, pure, Js.ret, Js.update, setupButton,
            captureAndEncodeFace, fetch, startFetch, await, consoleLog, h]
  · rfl
  · rfl
  · rfl
  · rfl
  · rfl
  · rfl

/-! ## Deleting the session -/

/-- C13: in every world, whenever the `/user/logout` request of `handleLogout` resolves, with
any status, both `accessToken` and `refreshToken` are removed from local storage.  For
`handleDeleteAccount` called with a stored access token that is not expired: an ok response to
`/user/delete_account` removes both entries; a response that is not ok, or a rejected
request, leaves local storage unchanged, so the access token is still stored. -/
theorem session_deleted_on_logout_and_account_deletion (B : Builtins) (w : World) (now : Int)
    (t : String) (response : Response) (reason : String) (refresh logout : FetchOutcome)
    (race : Race) :
    (((handleLogout (.resolved response)).settle w).storage.getItem "accessToken" = none ∧
      ((handleLogout (.resolved response)).settle w).storage.getItem "refreshToken" = none) ∧
    (w.storage.getItem "accessToken" = some t →
     isTokenExpired B now (.json (.str t)) = .ok false →
    (response.ok = true →
      ((handleDeleteAccount B now refresh logout (.resolved response) race).settle w).storage.getItem "accessToken" = none ∧
      ((handleDeleteAccount B now refresh logout (.resolved response) race).settle w).storage.getItem "refreshToken" = none) ∧
    (response.ok = false →
      ((handleDeleteAccount B now refresh logout (.resolved response) race).settle w).storage = w.storage ∧
      ((handleDeleteAccount B now refresh logout (.resolved response) race).settle w).storage.getItem "accessToken" = some t) ∧
    (((handleDeleteAccount B now refresh logout (.rejected reason) race).settle w).storage = w.storage ∧
      ((handleDeleteAccount B now refresh logout (.rejected reason) race).settle w).storage.getItem "accessToken" = some t)) := by
  refine ⟨?_, ?_⟩
  · simp [handleLogout, handleLogoutStart, handleLogoutSettle, Js.settle, Js.catch, bind,
      Js.andThen, pure, Js.ret, Js.update, startFetch, await, removeItem, loadSignUpForm,
      Storage.getItem, Storage.removeItem]
  intro hstored hfresh
  have hget : w.storage "accessToken" = some t := hstored
  have hne : t ≠ "" := by
    intro h
    subst h
    have : isTokenExpired B now (.json (.str "")) = .ok true := rfl
    rw [this] at hfresh
    cases hfresh
  refine ⟨?_, ?_, ?_⟩
  · intro hok
    simp [handleDeleteAccount, handleDeleteAccountChain, settleRace, Js.settle, Js.catch, bind,
      Js.andThen, pure, Js.ret, Js.update, Js.read, Js.ofExcept, getItem, Storage.getItem,
      hget, ofItem, hfresh, Value.truthy, hne, Value.toStr, startFetch, await, hok,
      removeItem, loadSignUpForm, Storage.removeItem]
  · intro hok
    simp [handleDeleteAccount, handleDeleteAccountChain, settleRace, Js.settle, Js.catch, bind,
      Js.andThen, pure, Js.ret, Js.update, Js.read, Js.ofExcept, getItem, Storage.getItem,
      hget, ofItem, hfresh, Value.truthy, hne, Value.toStr, startFetch, await, hok,
      consoleLog]
  · simp [handleDeleteAccount, handleDeleteAccountChain, settleRace, Js.settle, Js.catch, bind,
      Js.andThen, pure, Js.ret, Js.update, Js.read, Js.ofExcept, Js.throw, getItem,
      Storage.getItem, hget, ofItem, hfresh, Value.truthy, hne, Value.toStr, startFetch,
      await, consoleLog]

/-- C13 at the token `h.eyJleHAiOjEwfQ==.s` (`exp` = 10 s) read at 5 ms, with refresh token
`r0`: a logout answered 500, and a deletion answered 204, answered 403, or rejected. -/
theorem session_deleted_on_logout_and_account_deletion_witness :
    ((handleLogout (.resolved { status := 500, json := none })).settle
        (sampleWorld (some "h.eyJleHAiOjEwfQ==.s") (some "r0"))).storage.getItem "accessToken"
      = none ∧
    ((handleLogout (.resolved { status := 500, json := none })).settle
        (sampleWorld (some "h.eyJleHAiOjEwfQ==.s") (some "r0"))).storage.getItem "refreshToken"
      = none ∧
    ((handleDeleteAccount sampleBuiltins 5 (.rejected "unused") (.rejected "unused")
        (.resolved { status := 204, json := none }) .requestFirst).settle
        (sampleWorld (some "h.eyJleHAiOjEwfQ==.s") (some "r0"))).storage.getItem "accessToken"
      = none ∧
    ((handleDeleteAccount sampleBuiltins 5 (.rejected "unused") (.rejected "unused")
        (.resolved { status := 204, json := none }) .requestFirst).settle
        (sampleWorld (some "h.eyJleHAiOjEwfQ==.s") (some "r0"))).storage.getItem "refreshToken"
      = none ∧
    ((handleDeleteAccount sampleBuiltins 5 (.rejected "unused") (.rejected "unused")
        (.resolved { status := 403, json := none }) .requestFirst).settle
        (sampleWorld (some "h.eyJleHAiOjEwfQ==.s") (some "r0"))).storage
      = (sampleWorld (some "h.eyJleHAiOjEwfQ==.s") (some "r0")).storage ∧
    ((handleDeleteAccount sampleBuiltins 5 (.rejected "unused") (.rejected "unused")
        (.rejected "Failed to fetch") .requestFirst).settle
        (sampleWorld (some "h.eyJleHAiOjEwfQ==.s") (some "r0"))).storage
      = (sampleWorld (some "h.eyJleHAiOjEwfQ==.s") (some "r0")).storage :=
  have hok := session_deleted_on_logout_and_account_deletion sampleBuiltins
    (sampleWorld (some "h.eyJleHAiOjEwfQ==.s") (some "r0")) 5 "h.eyJleHAiOjEwfQ==.s"
    { status := 204, json := none } "Failed to fetch" (.rejected "unused") (.rejected "unused")
    .requestFirst
  have hbad := session_deleted_on_logout_and_account_deletion sampleBuiltins
    (sampleWorld (some "h.eyJleHAiOjEwfQ==.s") (some "r0")) 5 "h.eyJleHAiOjEwfQ==.s"
    { status := 403, json := none } "Failed to fetch" (.rejected "unused") (.rejected "unused")
    .requestFirst
  have hlogout := session_deleted_on_logout_and_account_deletion sampleBuiltins
    (sampleWorld (some "h.eyJleHAiOjEwfQ==.s") (some "r0")) 5 "h.eyJleHAiOjEwfQ==.s"
    { status := 500, json := none } "Failed to fetch" (.rejected "unused") (.rejected "unused")
    .requestFirst
  ⟨hlogout.1.1, hlogout.1.2, ((hok.2 rfl rfl).1 rfl).1, ((hok.2 rfl rfl).1 rfl).2,
   ((hbad.2 rfl rfl).2.1 rfl).1, (hok.2 rfl rfl).2.2.1⟩

/-! ## Requests made with the stored access token

Every chain only appends to the log of requests, so what the synchronous part of a handler has
issued stays at the front of the log however the chains settle. -/

theorem requests_andThen {α β : Type} (m : Js α) (f : α → Js β)
    (hm : ∀ w, ∃ post, (m w).2.requests = w.requests ++ post)
    (hf : ∀ a w, ∃ post, (f a w).2.requests = w.requests ++ post) (w : World) :
    ∃ post, ((m >>= f) w).2.requests = w.requests ++ post := by
  show ∃ post, (Js.andThen m f w).2.requests = w.requests ++ post
  obtain ⟨p1, h1⟩ := hm w
  unfold Js.andThen
  cases hmw : m w with
  | mk r w1 =>
    rw [hmw] at h1
    cases r with
    | error e => exact ⟨p1, h1⟩
    | ok a =>
      obtain ⟨p2, h2⟩ := hf a w1
      refine ⟨p1 ++ p2, ?_⟩
      show (f a w1).2.requests = w.requests ++ (p1 ++ p2)
      rw [h2]
      show w1.requests ++ p2 = w.requests ++ (p1 ++ p2)
      have h1b : w1.requests = w.requests ++ p1 := h1
      rw [h1b, List.append_assoc]

theorem requests_catch {α : Type} (m : Js α) (handler : JsError → Js α)
    (hm : ∀ w, ∃ post, (m w).2.requests = w.requests ++ post)
    (hh : ∀ e w, ∃ post, (handler e w).2.requests = w.requests ++ post) (w : World) :
    ∃ post, (Js.catch m handler w).2.requests = w.requests ++ post := by
  obtain ⟨p1, h1⟩ := hm w
  unfold Js.catch
  cases hmw : m w with
  | mk r w1 =>
    rw [hmw] at h1
    cases r with
    | ok a => exact ⟨p1, h1⟩
    | error e =>
      obtain ⟨p2, h2⟩ := hh e w1
      refine ⟨p1 ++ p2, ?_⟩
      show (handler e w1).2.requests = w.requests ++ (p1 ++ p2)
      rw [h2]
      have h1b : w1.requests = w.requests ++ p1 := h1
      rw [h1b, List.append_assoc]

theorem requests_unchanged {α : Type} (m : Js α)
    (h : ∀ w, (m w).2.requests = w.requests) (w : World) :
    ∃ post, (m w).2.requests = w.requests ++ post :=
  ⟨[], by rw [h w, List.append_nil]⟩

theorem requests_startFetch (req : Request) (w : World) :
    ∃ post, (startFetch req w).2.requests = w.requests ++ post := ⟨[req], rfl⟩

theorem requests_await (outcome : FetchOutcome) (w : World) :
    ∃ post, (await outcome w).2.requests = w.requests ++ post :=
  requests_unchanged _ (fun w => by cases outcome <;> rfl) w

theorem requests_awaitJson (r : Response) (w : World) :
    ∃ post, (r.awaitJson w).2.requests = w.requests ++ post := by
  unfold Response.awaitJson
  cases r.json with
  | none => exact ⟨[], (List.append_nil _).symm⟩
  | some v => exact ⟨[], (List.append_nil _).symm⟩

theorem requests_handleLogoutSettle (logout : FetchOutcome) (w : World) :
    ∃ post, (handleLogoutSettle logout w).2.requests = w.requests ++ post := by
  unfold handleLogoutSettle
  apply requests_catch
  · apply requests_andThen
    · exact requests_await logout
    · intro _
      apply requests_andThen
      · exact requests_unchanged _ (fun _ => rfl)
      · intro _
        apply requests_andThen
        · exact requests_unchanged _ (fun _ => rfl)
        · intro _
          exact requests_startFetch _
  · intro _
    exact requests_unchanged _ (fun _ => rfl)
theorem requests_refreshAccessTokenChain (B : Builtins) (refresh : FetchOutcome) (w : World) :
    ∃ post, (refreshAccessTokenChain B refresh w).2.requests = w.requests ++ post := by
  unfold refreshAccessTokenChain handleLogoutStart
  repeat' first
    | exact requests_awaitJson _
    | exact requests_awaitJson _ _
    | exact requests_await _
    | exact requests_await _ _
    | exact requests_startFetch _
    | exact requests_startFetch _ _
    | exact requests_unchanged _ (fun _ => rfl)
    | exact requests_unchanged _ (fun _ => rfl) _
    | intro _
    | apply requests_catch
    | apply requests_andThen
    | split

theorem requests_refreshAccessTokenSettle (B : Builtins) (refresh logout : FetchOutcome)
    (w : World) :
    ∃ post, (refreshAccessTokenSettle B refresh logout w).2.requests = w.requests ++ post := by
  unfold refreshAccessTokenSettle
  repeat' first
    | exact requests_refreshAccessTokenChain _ _
    | exact requests_refreshAccessTokenChain _ _ _
    | exact requests_handleLogoutSettle _
    | exact requests_handleLogoutSettle _ _
    | exact requests_unchanged _ (fun _ => rfl)
    | exact requests_unchanged _ (fun _ => rfl) _
    | intro _
    | apply requests_andThen
    | split

theorem requests_settleRace (B : Builtins) (refreshing : Bool) (refresh logout : FetchOutcome)
    (race : Race) (own : Js Unit)
    (hown : ∀ w, ∃ post, (own w).2.requests = w.requests ++ post) (w : World) :
    ∃ post, (settleRace B refreshing refresh logout race own w).2.requests
      = w.requests ++ post := by
  unfold settleRace
  repeat' first
    | exact hown
    | exact hown _
    | exact requests_refreshAccessTokenChain _ _
    | exact requests_refreshAccessTokenChain _ _ _
    | exact requests_refreshAccessTokenSettle _ _ _
    | exact requests_refreshAccessTokenSettle _ _ _ _
    | exact requests_handleLogoutSettle _
    | exact requests_handleLogoutSettle _ _
    | exact requests_unchanged _ (fun _ => rfl)
    | exact requests_unchanged _ (fun _ => rfl) _
    | intro _
    | apply requests_andThen
    | split

theorem requests_handleDeleteAccountChain (delete : FetchOutcome) (w : World) :
    ∃ post, (handleDeleteAccountChain delete w).2.requests = w.requests ++ post := by
  unfold handleDeleteAccountChain loadSignUpForm
  repeat' first
    | exact requests_await _
    | exact requests_await _ _
    | exact requests_startFetch _
    | exact requests_startFetch _ _
    | exact requests_unchanged _ (fun _ => rfl)
    | exact requests_unchanged _ (fun _ => rfl) _
    | intro _
    | apply requests_catch
    | apply requests_andThen
    | split

theorem requests_fetchAndDisplayUserDetailsChain (B : Builtins) (details : FetchOutcome)
    (w : World) :
    ∃ post, (fetchAndDisplayUserDetailsChain B details w).2.requests = w.requests ++ post := by
  unfold fetchAndDisplayUserDetailsChain
  repeat' first
    | exact requests_awaitJson _
    | exact requests_awaitJson _ _
    | exact requests_await _
    | exact requests_await _ _
    | exact requests_unchanged _ (fun _ => rfl)
    | exact requests_unchanged _ (fun _ => rfl) _
    | intro _
    | apply requests_catch
    | apply requests_andThen
    | split

theorem fetchAndDisplayUserDetails_requests (B : Builtins) (w : World) (now : Int) (t : String)
    (expired : Bool) (refresh logout details : FetchOutcome) (race : Race)
    (hstored : w.storage.getItem "accessToken" = some t) (hnonempty : t ≠ "")
    (hdecoded : isTokenExpired B now (.json (.str t)) = .ok expired) :
    ∃ post, ((fetchAndDisplayUserDetails B now refresh logout details race).settle w).requests
      = w.requests
        ++ (if expired && (ofItem (w.storage.getItem "refreshToken")).truthy
            then [refreshRequest ((ofItem (w.storage.getItem "refreshToken")).toStr B)]
            else [])
        ++ [detailsRequest t] ++ post := by
  have hget : w.storage "accessToken" = some t := hstored
  have hchain := requests_fetchAndDisplayUserDetailsChain B details
  cases expired with
  | false =>
    have hsync : fetchAndDisplayUserDetails B now refresh logout details race w
        = settleRace B false refresh logout race (fetchAndDisplayUserDetailsChain B details)
            { w with requests := w.requests ++ [detailsRequest t] } := by
      simp [fetchAndDisplayUserDetails, bind, Js.andThen, pure, Js.ret, Js.update, Js.read,
        Js.ofExcept, getItem, Storage.getItem, hget, ofItem, hdecoded, Value.truthy,
        hnonempty, Value.toStr, startFetch]
    obtain ⟨post, h⟩ := requests_settleRace B false refresh logout race _ hchain
      { w with requests := w.requests ++ [detailsRequest t] }
    refine ⟨post, ?_⟩
    rw [Js.settle, hsync, h]
    simp
  | true =>
    cases hrt : w.storage "refreshToken" with
    | none =>
      have hsync : fetchAndDisplayUserDetails B now refresh logout details race w
          = settleRace B false refresh logout race (fetchAndDisplayUserDetailsChain B details)
              { w with
                console := w.console ++ ["No refresh token available. Please log in again."],
                requests := w.requests ++ [detailsRequest t] } := by
        simp [fetchAndDisplayUserDetails, refreshAccessTokenStart, bind, Js.andThen, pure,
          Js.ret, Js.update, Js.read, Js.ofExcept, getItem, Storage.getItem, hget, hrt, ofItem,
          hdecoded, Value.truthy, hnonempty, Value.toStr, startFetch, consoleLog]
      obtain ⟨post, h⟩ := requests_settleRace B false refresh logout race _ hchain
        { w with
          console := w.console ++ ["No refresh token available. Please log in again."],
          requests := w.requests ++ [detailsRequest t] }
      refine ⟨post, ?_⟩
      rw [Js.settle, hsync, h]
      simp [Storage.getItem, hrt, ofItem, Value.truthy]
    | some rt =>
      by_cases hempty : rt = ""
      · have hsync : fetchAndDisplayUserDetails B now refresh logout details race w
            = settleRace B false refresh logout race (fetchAndDisplayUserDetailsChain B details)
                { w with
                  console := w.console ++ ["No refresh token available. Please log in again."],
                  requests := w.requests ++ [detailsRequest t] } := by
          simp [fetchAndDisplayUserDetails, refreshAccessTokenStart, bind, Js.andThen, pure,
            Js.ret, Js.update, Js.read, Js.ofExcept, getItem, Storage.getItem, hget, hrt,
            ofItem, hdecoded, Value.truthy, hnonempty, hempty, Value.toStr, startFetch,
            consoleLog]
        obtain ⟨post, h⟩ := requests_settleRace B false refresh logout race _ hchain
          { w with
            console := w.console ++ ["No refresh token available. Please log in again."],
            requests := w.requests ++ [detailsRequest t] }
        refine ⟨post, ?_⟩
        rw [Js.settle, hsync, h]
        simp [Storage.getItem, hrt, ofItem, Value.truthy, hempty]
      · have hsync : fetchAndDisplayUserDetails B now refresh logout details race w
            = settleRace B true refresh logout race (fetchAndDisplayUserDetailsChain B details)
                { w with
                  requests := w.requests ++ [refreshRequest rt] ++ [detailsRequest t] } := by
          simp [fetchAndDisplayUserDetails, refreshAccessTokenStart, bind, Js.andThen, pure,
            Js.ret, Js.update, Js.read, Js.ofExcept, getItem, Storage.getItem, hget, hrt,
            ofItem, hdecoded, Value.truthy, hnonempty, hempty, Value.toStr, startFetch,
            consoleLog]
        obtain ⟨post, h⟩ := requests_settleRace B true refresh logout race _ hchain
          { w with requests := w.requests ++ [refreshRequest rt] ++ [detailsRequest t] }
        refine ⟨post, ?_⟩
        rw [Js.settle, hsync, h]
        simp [Storage.getItem, hrt, ofItem, Value.truthy, hempty, Value.toStr]

theorem handleDeleteAccount_requests (B : Builtins) (w : World) (now : Int) (t : String)
    (expired : Bool) (refresh logout delete : FetchOutcome) (race : Race)
    (hstored : w.storage.getItem "accessToken" = some t) (hnonempty : t ≠ "")
    (hdecoded : isTokenExpired B now (.json (.str t)) = .ok expired) :
    ∃ post, ((handleDeleteAccount B now refresh logout delete race).settle w).requests
      = w.requests
        ++ (if expired && (ofItem (w.storage.getItem "refreshToken")).truthy
            then [refreshRequest ((ofItem (w.storage.getItem "refreshToken")).toStr B)]
            else [])
        ++ [deleteRequest t w.dom.email] ++ post := by
  have hget : w.storage "accessToken" = some t := hstored
  have hchain := requests_handleDeleteAccountChain delete
  cases expired with
  | false =>
    have hsync : handleDeleteAccount B now refresh logout delete race w
        = settleRace B false refresh logout race (handleDeleteAccountChain delete)
            { w with requests := w.requests ++ [deleteRequest t w.dom.email] } := by
      simp [handleDeleteAccount, bind, Js.andThen, pure, Js.ret, Js.update, Js.read,
        Js.ofExcept, getItem, Storage.getItem, hget, ofItem, hdecoded, Value.truthy,
        hnonempty, Value.toStr, startFetch]
    obtain ⟨post, h⟩ := requests_settleRace B false refresh logout race _ hchain
      { w with requests := w.requests ++ [deleteRequest t w.dom.email] }
    refine ⟨post, ?_⟩
    rw [Js.settle, hsync, h]
    simp
  | true =>
    cases hrt : w.storage "refreshToken" with
    | none =>
      have hsync : handleDeleteAccount B now refresh logout delete race w
          = settleRace B false refresh logout race (handleDeleteAccountChain delete)
              { w with
                console := w.console ++ ["No refresh token available. Please log in again."],
                requests := w.requests ++ [deleteRequest t w.dom.email] } := by
        simp [handleDeleteAccount, refreshAccessTokenStart, bind, Js.andThen, pure,
          Js.ret, Js.update, Js.read, Js.ofExcept, getItem, Storage.getItem, hget, hrt, ofItem,
          hdecoded, Value.truthy, hnonempty, Value.toStr, startFetch, consoleLog]
      obtain ⟨post, h⟩ := requests_settleRace B false refresh logout race _ hchain
        { w with
          console := w.console ++ ["No refresh token available. Please log in again."],
          requests := w.requests ++ [deleteRequest t w.dom.email] }
      refine ⟨post, ?_⟩
      rw [Js.settle, hsync, h]
      simp [Storage.getItem, hrt, ofItem, Value.truthy]
    | some rt =>
      by_cases hempty : rt = ""
      · have hsync : handleDeleteAccount B now refresh logout delete race w
            = settleRace B false refresh logout race (handleDeleteAccountChain delete)
                { w with
                  console := w.console ++ ["No refresh token available. Please log in again."],
                  requests := w.requests ++ [deleteRequest t w.dom.email] } := by
          simp [handleDeleteAccount, refreshAccessTokenStart, bind, Js.andThen, pure,
            Js.ret, Js.update, Js.read, Js.ofExcept, getItem, Storage.getItem, hget, hrt,
            ofItem, hdecoded, Value.truthy, hnonempty, hempty, Value.toStr, startFetch,
            consoleLog]
        obtain ⟨post, h⟩ := requests_settleRace B false refresh logout race _ hchain
          { w with
            console := w.console ++ ["No refresh token available. Please log in again."],
            requests := w.requests ++ [deleteRequest t w.dom.email] }
        refine ⟨post, ?_⟩
        rw [Js.settle, hsync, h]
        simp [Storage.getItem, hrt, ofItem, Value.truthy, hempty]
      · have hsync : handleDeleteAccount B now refresh logout delete race w
            = settleRace B true refresh logout race (handleDeleteAccountChain delete)
                { w with
                  requests := w.requests ++ [refreshRequest rt] ++ [deleteRequest t w.dom.email] } := by
          simp [handleDeleteAccount, refreshAccessTokenStart, bind, Js.andThen, pure,
            Js.ret, Js.update, Js.read, Js.ofExcept, getItem, Storage.getItem, hget, hrt,
            ofItem, hdecoded, Value.truthy, hnonempty, hempty, Value.toStr, startFetch,
            consoleLog]
        obtain ⟨post, h⟩ := requests_settleRace B true refresh logout race _ hchain
          { w with requests := w.requests ++ [refreshRequest rt] ++ [deleteRequest t w.dom.email] }
        refine ⟨post, ?_⟩
        rw [Js.settle, hsync, h]
        simp [Storage.getItem, hrt, ofItem, Value.truthy, hempty, Value.toStr]

/-- C12, as stated, fails: with the non-empty access token `undefined` stored, whose
second segment is missing, `isTokenExpired` throws inside `fetchAndDisplayUserDetails` and
`handleDeleteAccount` before any request is built, so neither handler issues a request. -/
theorem undecodable_token_sends_no_request :
    (sampleWorld (some "undefined") (some "r0")).storage.getItem "accessToken"
      = some "undefined" ∧
    isTokenExpired sampleBuiltins 0 (.json (.str "undefined")) = .error .invalidCharacter ∧
    ((fetchAndDisplayUserDetails sampleBuiltins 0 (.resolved { status := 200, json := none })
        (.resolved { status := 200, json := none }) (.resolved { status := 200, json := none })
        .requestFirst).settle (sampleWorld (some "undefined") (some "r0"))).requests = [] ∧
    ((handleDeleteAccount sampleBuiltins 0 (.resolved { status := 200, json := none })
        (.resolved { status := 200, json := none }) (.resolved { status := 200, json := none })
        .requestFirst).settle (sampleWorld (some "undefined") (some "r0"))).requests = [] ∧
    detailsRequest "undefined" ∉
      ((fetchAndDisplayUserDetails sampleBuiltins 0 (.resolved { status := 200, json := none })
        (.resolved { status := 200, json := none }) (.resolved { status := 200, json := none })
        .requestFirst).settle (sampleWorld (some "undefined") (some "r0"))).requests := by
  refine ⟨rfl, rfl, rfl, rfl, ?_⟩
  show detailsRequest "undefined" ∉ ([] : List Request)
  exact List.not_mem_nil _

/-- C12, amended: for every non-empty stored access token t on which `isTokenExpired`
returns, expired or not, `fetchAndDisplayUserDetails` and `handleDeleteAccount` issue their
request with header `Authorization` = `Bearer t`, t being the token read at entry.  When t is
expired and a non-empty refresh token is stored, the refresh request is issued first and
not awaited; however the refresh, the logout it may start and the request itself settle, and
in whatever order, the request with the stale token stays in the log right after it. -/
theorem request_carries_token_read_at_entry (B : Builtins) (w : World) (now : Int)
    (t : String) (expired : Bool) (refresh logout own : FetchOutcome) (race : Race)
    (hstored : w.storage.getItem "accessToken" = some t) (hnonempty : t ≠ "")
    (hdecoded : isTokenExpired B now (.json (.str t)) = .ok expired) :
    (∃ post, ((fetchAndDisplayUserDetails B now refresh logout own race).settle w).requests
      = w.requests
        ++ (if expired && (ofItem (w.storage.getItem "refreshToken")).truthy
            then [refreshRequest ((ofItem (w.storage.getItem "refreshToken")).toStr B)]
            else [])
        ++ [detailsRequest t] ++ post) ∧
    (∃ post, ((handleDeleteAccount B now refresh logout own race).settle w).requests
      = w.requests
        ++ (if expired && (ofItem (w.storage.getItem "refreshToken")).truthy
            then [refreshRequest ((ofItem (w.storage.getItem "refreshToken")).toStr B)]
            else [])
        ++ [deleteRequest t w.dom.email] ++ post) ∧
    (detailsRequest t).headers.lookup "Authorization" = some ("Bearer " ++ t) ∧
    (deleteRequest t w.dom.email).headers.lookup "Authorization" = some ("Bearer " ++ t) :=
  ⟨fetchAndDisplayUserDetails_requests B w now t expired refresh logout own race hstored
      hnonempty hdecoded,
   handleDeleteAccount_requests B w now t expired refresh logout own race hstored
      hnonempty hdecoded,
   rfl, rfl⟩

/-- C12, amended, at the token `h.eyJleHAiOjEwfQ==.s` (`exp` = 10 s) read at 20000 ms, so
expired, with refresh token `r0`, a refresh answered 401, a logout answered 200, and the
refresh settling before the request. -/
theorem request_carries_token_read_at_entry_witness :
    (∃ post, ((fetchAndDisplayUserDetails sampleBuiltins 20000
        (.resolved { status := 401, json := none }) (.resolved { status := 200, json := none })
        (.resolved { status := 200, json := none }) .logoutFirst).settle
        (sampleWorld (some "h.eyJleHAiOjEwfQ==.s") (some "r0"))).requests
      = [] ++ [refreshRequest "r0"] ++ [detailsRequest "h.eyJleHAiOjEwfQ==.s"] ++ post) ∧
    (∃ post, ((handleDeleteAccount sampleBuiltins 20000
        (.resolved { status := 401, json := none }) (.resolved { status := 200, json := none })
        (.resolved { status := 200, json := none }) .logoutFirst).settle
        (sampleWorld (some "h.eyJleHAiOjEwfQ==.s") (some "r0"))).requests
      = [] ++ [refreshRequest "r0"] ++ [deleteRequest "h.eyJleHAiOjEwfQ==.s" ""] ++ post) :=
  have h := request_carries_token_read_at_entry sampleBuiltins
    (sampleWorld (some "h.eyJleHAiOjEwfQ==.s") (some "r0")) 20000 "h.eyJleHAiOjEwfQ==.s" true
    (.resolved { status := 401, json := none }) (.resolved { status := 200, json := none })
    (.resolved { status := 200, json := none }) .logoutFirst rfl (by decide) rfl
  ⟨h.1, h.2.1⟩

end BiometricAuth
